import Mathlib

/-!
Verification development for the trivia-football web game.

The repository's server actions (src/app/actions/game.ts, src/app/actions/lobby.ts)
are stateless handlers over three relational tables (games, players, play_calls,
plus an append-only plays log).  This file gives a shallow embedding of those
handlers: each TypeScript action becomes a pure Lean function from a database
snapshot (plus the random values the action draws) to a result and an updated
snapshot.  JavaScript numbers are embedded as `Int` (all arithmetic in the
source is integral), nullable columns as `Option`, and `Math.random`-based
draws as reads from an explicit tape of integers, so that every possible
execution of an action corresponds to some choice of tape.
-/

namespace TriviaFootball

/-! ## String helpers

The source uses JavaScript `String.prototype.toLowerCase`, `toUpperCase`,
`trim` and `includes` on ASCII play-call strings.  We model them on the
character lists underlying Lean strings. -/

/-- Character-list version of substring search: does `l` start with `p`? -/
def startsWithChars : List Char → List Char → Bool
  | [], _ => true
  | _ :: _, [] => false
  | p :: ps, c :: cs => p = c && startsWithChars ps cs

/-- Does the character list `l` contain `p` as a contiguous sublist? -/
def containsChars (p : List Char) : List Char → Bool
  | [] => p.isEmpty
  | c :: cs => startsWithChars p (c :: cs) || containsChars p cs

/-- JavaScript `s.includes(pat)`. -/
def strIncludes (s pat : String) : Bool :=
  containsChars pat.data s.data

/-- JavaScript `s.toLowerCase()` (ASCII play-call strings only). -/
def lowerStr (s : String) : String :=
  ⟨s.data.map Char.toLower⟩

/-- JavaScript `s.toUpperCase()` (ASCII game codes only). -/
def upperStr (s : String) : String :=
  ⟨s.data.map Char.toUpper⟩

/-- JavaScript `s.trim()`: strip whitespace from both ends. -/
def trimStr (s : String) : String :=
  ⟨((s.data.dropWhile Char.isWhitespace).reverse.dropWhile Char.isWhitespace).reverse⟩

/-! ## Randomness

`randomInt(min, max)` in the source is `Math.floor(Math.random() * (max - min + 1)) + min`,
a uniform draw from `[min, max]`.  We embed it as a read from a tape of
integers: the draw at position `idx` is `min + tape idx % (max - min + 1)`,
which for `min ≤ max` ranges over exactly `[min, max]` as the tape varies. -/

/-- A random-number source: an infinite tape of integers and a cursor. -/
structure RS where
  tape : Nat → Int
  idx : Nat

/-- Model of `randomInt(lo, hi)` from the source, reading one value from the tape. -/
def randomInt (lo hi : Int) (s : RS) : Int × RS :=
  (lo + s.tape s.idx % (hi - lo + 1), ⟨s.tape, s.idx + 1⟩)

/-- Model of `rollByDifficulty` from src/app/actions/game.ts. -/
def rollByDifficulty (difficulty : String) (s : RS) : Int × RS :=
  if difficulty = "easy" then randomInt 1 4 s
  else if difficulty = "medium" then
    let (a, s1) := randomInt 1 4 s
    let (b, s2) := randomInt 1 4 s1
    (a + b, s2)
  else if difficulty = "hard" then randomInt 1 10 s
  else if difficulty = "hail_mary" then randomInt 1 20 s
  else randomInt 1 4 s

/-- Model of `matchupMod` from src/app/actions/game.ts: the play-call matchup
modifier and the turnover-chance flag. -/
def matchupMod (offense defense : String) (offenseCorrect : Bool) (s : RS) :
    (Int × Bool) × RS :=
  let o := lowerStr offense
  let d := lowerStr defense
  if strIncludes o "run" then
    if strIncludes d "run stop" then
      let (m, s1) := randomInt (-3) (-1) s
      ((m, false), s1)
    else if strIncludes d "pass" then
      let (m, s1) := randomInt 2 4 s
      ((m, false), s1)
    else if strIncludes d "blitz" then
      if offenseCorrect then
        let (m, s1) := randomInt 3 5 s
        ((m, false), s1)
      else
        let (m, s1) := randomInt (-3) (-1) s
        ((m, false), s1)
    else ((0, false), s)
  else if strIncludes o "screen" then
    if strIncludes d "blitz" then
      if offenseCorrect then
        let (m, s1) := randomInt 4 6 s
        ((m, false), s1)
      else
        let (m, s1) := randomInt (-2) 0 s
        ((m, false), s1)
    else
      let (m, s1) := randomInt 0 2 s
      ((m, false), s1)
  else if strIncludes o "deep" || strIncludes o "hail" then
    if strIncludes d "pass" then
      let (m, s1) := randomInt (-5) (-2) s
      ((m, true), s1)
    else if strIncludes d "blitz" then
      if offenseCorrect then
        let (m, s1) := randomInt 4 7 s
        ((m, true), s1)
      else
        let (m, s1) := randomInt (-6) (-3) s
        ((m, true), s1)
    else ((0, true), s)
  else if strIncludes o "pass" then
    if strIncludes d "pass" then
      let (m, s1) := randomInt (-3) (-1) s
      ((m, false), s1)
    else if strIncludes d "run" then
      let (m, s1) := randomInt 2 4 s
      ((m, false), s1)
    else if strIncludes d "blitz" then
      if offenseCorrect then
        let (m, s1) := randomInt 3 5 s
        ((m, false), s1)
      else
        let (m, s1) := randomInt (-4) (-2) s
        ((m, false), s1)
    else ((0, false), s)
  else if strIncludes o "trick" then
    let (m, s1) := randomInt (-2) 6 s
    ((m, false), s1)
  else ((0, false), s)

/-- The yardage computation of `finalizePlayResolution` before the final
clamp (everything from `let yards` down to the hail-mary turnover branch). -/
def unclampedYards (offensePlay offenseDiff defensePlay : String)
    (finalOffenseCorrect finalDefenseCorrect : Bool)
    (dieOffense dieDefense : Int) (s : RS) : Int × RS :=
  let playLower := lowerStr offensePlay
  let isPassLike := strIncludes playLower "pass" || strIncludes playLower "screen" ||
    strIncludes playLower "hail"
  let isHail := strIncludes playLower "hail"
  let rollDiff := dieDefense - dieOffense
  let (yards0, s1) :=
    if isHail then
      if finalOffenseCorrect then
        if dieOffense ≥ 17 then randomInt 30 50 s else randomInt 12 24 s
      else ((0 : Int), s)
    else if isPassLike then
      if finalOffenseCorrect then
        (dieOffense + (if offenseDiff = "hard" then 3 else 1), s)
      else ((0 : Int), s)
    else if strIncludes playLower "run" then
      if finalOffenseCorrect then (dieOffense + 1, s)
      else
        let (r, sa) := randomInt 1 3 s
        (-r, sa)
    else
      if finalOffenseCorrect then (dieOffense, s)
      else
        let (r, sa) := randomInt 1 2 s
        (-r, sa)
  let ((mod, turnoverChance), s2) := matchupMod offensePlay defensePlay finalOffenseCorrect s1
  let appliedMod :=
    if isPassLike && !finalOffenseCorrect && !finalDefenseCorrect then max 0 mod else mod
  let yards1 := yards0 + appliedMod
  let (yards2, s3) :=
    if finalDefenseCorrect then
      let y := Int.fdiv yards1 2
      if !finalOffenseCorrect then
        let (r1, sa) := randomInt 1 3 s2
        let y2 := y - r1
        if isPassLike && rollDiff > 2 then
          let (r2, sb) := randomInt 0 2 sa
          (y2 - r2, sb)
        else (y2, sa)
      else (y, s2)
    else if finalOffenseCorrect then (yards1 + 2, s2)
    else (yards1, s2)
  if isHail && !finalOffenseCorrect && dieOffense ≤ 3 && turnoverChance then
    let (r, sa) := randomInt 5 12 s3
    (-r, sa)
  else (yards2, s3)

/-- The complete yardage computation of `finalizePlayResolution`, ending with
`yards = Math.max(-20, Math.min(60, yards))`. -/
def computeYards (offensePlay offenseDiff defensePlay : String)
    (finalOffenseCorrect finalDefenseCorrect : Bool)
    (dieOffense dieDefense : Int) (s : RS) : Int × RS :=
  match unclampedYards offensePlay offenseDiff defensePlay
      finalOffenseCorrect finalDefenseCorrect dieOffense dieDefense s with
  | (y, s4) => (max (-20) (min 60 y), s4)

/-! ## Data model

One game and its dependent rows, following supabase/schema.sql.  Nullable
columns are `Option`; `text` columns holding enumerations stay `String`
except the `home`/`away` side columns, which get their own type. -/

/-- A team side (`'home'` / `'away'` check constraints in the schema). -/
inductive Side where
  | home
  | away
deriving Repr, DecidableEq

/-- The `games` row fields read or written by the embedded actions. -/
structure Game where
  status : String
  phase : String
  play_subphase : Option String
  possession_side : Option Side
  offense_side : Option Side
  defense_side : Option Side
  down : Int
  distance : Int
  yard_line : Int
  score_home : Int
  score_away : Int
  clock_seconds : Int
  play_clock_seconds : Int
  toss_result : Option String
  toss_winner_side : Option Side
  toss_choice : Option String
  second_half_kickoff_side : Option Side
  current_play_seq : Option Int
  last_play_id : Option Nat
  lobby_locked : Bool
deriving Repr, DecidableEq

/-- A `players` row (fields used by the game actions). -/
structure Player where
  id : Nat
  side : Option Side
  role : String
deriving Repr, DecidableEq

/-- A `play_calls` row.  Uniqueness of `(game_id, player_id, seq)` is the
`unique_play_call_seq` constraint; within this single-game snapshot the key
is `(player_id, seq)`. -/
structure PlayCallRow where
  player_id : Nat
  side : Option Side
  role : String
  play_call : Option String
  difficulty : Option String
  seq : Int
  answer : Option Bool
  roll : Option Int
  ready_after_roll : Bool
deriving Repr, DecidableEq

/-- A `plays` log row as inserted by `finalizePlayResolution`. -/
structure PlayRow where
  seq : Int
  offense_side : Option Side
  defense_side : Option Side
  call_offense : String
  call_defense : String
  difficulty : String
  offense_roll : Int
  defense_roll : Int
  offense_correct : Bool
  defense_correct : Bool
  yards : Int
  turnover : Bool
  result_text : String
deriving Repr, DecidableEq

/-- A snapshot of one game's rows: the `games` row, its `players`,
`play_calls` and `plays`. -/
structure GDB where
  game : Game
  players : List Player
  play_calls : List PlayCallRow
  plays : List PlayRow
deriving Repr, DecidableEq

/-- Model of `.from("players").select(...).eq("id", pid).maybeSingle()`. -/
def findPlayer (db : GDB) (pid : Nat) : Option Player :=
  db.players.find? (fun p => p.id == pid)

/-- Model of `calls.find((c) => c.role === r)`. -/
def findRole (calls : List PlayCallRow) (r : String) : Option PlayCallRow :=
  calls.find? (fun c => c.role == r)

/-! ## Play resolution (`finalizePlayResolution`) -/

/-- Model of `Math.min(100, Math.max(0, game.yard_line + (offense home ? yards : -yards)))`. -/
def newYardLine (g : Game) (yards : Int) : Int :=
  min 100 (max 0 (g.yard_line + (if g.offense_side = some Side.home then yards else -yards)))

/-- Model of `gained`: the signed progress toward the offense's goal after clamping. -/
def gainedYards (g : Game) (yards : Int) : Int :=
  if g.offense_side = some Side.home then newYardLine g yards - g.yard_line
  else g.yard_line - newYardLine g yards

/-- The home-offense touchdown condition of `finalizePlayResolution`. -/
def tdHome (g : Game) (yards : Int) : Prop :=
  g.offense_side = some Side.home ∧ 100 ≤ newYardLine g yards

/-- The away-offense touchdown condition of `finalizePlayResolution`. -/
def tdAway (g : Game) (yards : Int) : Prop :=
  g.offense_side = some Side.away ∧ newYardLine g yards ≤ 0

instance (g : Game) (yards : Int) : Decidable (tdHome g yards) := by
  unfold tdHome; infer_instance

instance (g : Game) (yards : Int) : Decidable (tdAway g yards) := by
  unfold tdAway; infer_instance

/-- The state-update portion of `finalizePlayResolution` (source lines
`const newYardLine = ...` through the games-row update): given the clamped
`yards`, it returns the updated game row, the recorded `gained` yards and
the turnover flag. -/
def resolveOutcome (g : Game) (yards : Int) : Game × Int × Bool :=
  let nyl := newYardLine g yards
  let gained := gainedYards g yards
  let remaining := g.distance - gained
  let nextDown0 : Int := if remaining ≤ 0 then 1 else g.down + 1
  let nextDistance0 : Int := if remaining > 0 then remaining else 10
  let turnover := decide (nextDown0 > 4)
  let nextDown1 : Int := if nextDown0 > 4 then 1 else nextDown0
  let nextDistance1 : Int := if nextDown0 > 4 then 10 else nextDistance0
  let possession0 := if nextDown0 > 4 then g.defense_side else g.offense_side
  let offenseSide0 := if nextDown0 > 4 then g.defense_side else g.offense_side
  let defenseSide0 := if nextDown0 > 4 then g.offense_side else g.defense_side
  let phase1 := if tdHome g yards then "kickoff" else if tdAway g yards then "kickoff" else g.phase
  let g1 : Game :=
    { g with
      play_subphase := if phase1 = "kickoff" then none else some "play_call"
      phase := phase1
      down := if tdHome g yards then 1 else if tdAway g yards then 1 else nextDown1
      distance := if tdHome g yards then 10 else if tdAway g yards then 10 else nextDistance1
      yard_line := if tdHome g yards then 25 else if tdAway g yards then 25 else nyl
      possession_side :=
        if tdHome g yards then some Side.away else if tdAway g yards then some Side.home
        else possession0
      offense_side :=
        if tdHome g yards then some Side.away else if tdAway g yards then some Side.home
        else offenseSide0
      defense_side :=
        if tdHome g yards then some Side.home else if tdAway g yards then some Side.away
        else defenseSide0
      score_home := if tdHome g yards then g.score_home + 7 else g.score_home
      score_away := if tdAway g yards ∧ ¬ tdHome g yards then g.score_away + 7 else g.score_away
      current_play_seq := some (g.current_play_seq.getD 1 + 1) }
  (g1, gained, turnover)

/-- The dice of `finalizePlayResolution`: stored rolls if present, otherwise
fresh draws (`offense.roll ?? rollByDifficulty(...)`, `defense.roll ?? randomInt(1, 4)`). -/
def dieRolls (off dfn : PlayCallRow) (s : RS) : (Int × Int) × RS :=
  let (dieOffense, s1) :=
    match off.roll with
    | some r => (r, s)
    | none => rollByDifficulty (off.difficulty.getD "easy") s
  let (dieDefense, s2) :=
    match dfn.roll with
    | some r => (r, s1)
    | none => randomInt 1 4 s1
  ((dieOffense, dieDefense), s2)

/-- Model of `finalizePlayResolution(gameId, seq)`: resolves the play at `seq` from
the two play-call rows, updates the games row, clears next-sequence play
calls, and appends a `plays` log row.  Fails with the source's error when a
side's row is missing. -/
def finalizePlayResolution (db : GDB) (seq : Int) (s : RS) : Except String Unit × GDB :=
  let g := db.game
  let calls := db.play_calls.filter (fun c => c.seq == seq)
  match findRole calls "offense", findRole calls "defense" with
  | some off, some dfn =>
    let offensePlay := off.play_call.getD "Run"
    let offenseDiff := off.difficulty.getD "easy"
    let defensePlay := dfn.play_call.getD "Pass D"
    let finalOffenseCorrect := off.answer.getD false
    let finalDefenseCorrect := dfn.answer.getD false
    match dieRolls off dfn s with
    | ((dieOffense, dieDefense), s2) =>
      match computeYards offensePlay offenseDiff defensePlay
          finalOffenseCorrect finalDefenseCorrect dieOffense dieDefense s2 with
      | (yards, _s3) =>
        match resolveOutcome g yards with
        | (g1, gained, turnover) =>
          let nextSeq := g.current_play_seq.getD 1 + 1
          let pcs := db.play_calls.filter (fun c => !(c.seq == nextSeq))
          let row : PlayRow :=
            { seq := seq
              offense_side := g.offense_side
              defense_side := g.defense_side
              call_offense := offensePlay
              call_defense := defensePlay
              difficulty := offenseDiff
              offense_roll := dieOffense
              defense_roll := dieDefense
              offense_correct := finalOffenseCorrect
              defense_correct := finalDefenseCorrect
              yards := gained
              turnover := turnover
              result_text :=
                if turnover then "Turnover on downs"
                else "Gained " ++ toString gained ++ " yards" }
          (Except.ok (), { db with game := g1, play_calls := pcs, plays := db.plays ++ [row] })
  | _, _ => (Except.error "Missing play data.", db)

/-! ## Drive actions -/

/-- The key of the `unique_play_call_seq` upsert: `(player_id, seq)`
(the `game_id` component is fixed by the snapshot). -/
def sameKey (c : PlayCallRow) (pid : Nat) (seq : Int) : Bool :=
  c.player_id == pid && c.seq == seq

/-- The column update performed by `submitPlayCallAction`'s upsert when the
key conflicts: only the payload columns are overwritten. -/
def updCall (side : Option Side) (role playCall difficulty : String)
    (c : PlayCallRow) : PlayCallRow :=
  { c with side := side, role := role, play_call := some playCall,
           difficulty := some difficulty }

/-- The row inserted by `submitPlayCallAction`'s upsert when the key is new:
the unsent columns take their schema defaults. -/
def newCallRow (pid : Nat) (seq : Int) (side : Option Side)
    (role playCall difficulty : String) : PlayCallRow :=
  { player_id := pid, side := side, role := role, play_call := some playCall,
    difficulty := some difficulty, seq := seq, answer := none, roll := none,
    ready_after_roll := false }

/-- The upsert of `submitPlayCallAction`: its payload carries `side`, `role`,
`play_call`, `difficulty` (plus the key), so on conflict only those columns
are updated; on insert the remaining columns take their schema defaults. -/
def upsertCallRow (rows : List PlayCallRow) (pid : Nat) (seq : Int)
    (side : Option Side) (role : String) (playCall difficulty : String) : List PlayCallRow :=
  if rows.any (fun c => sameKey c pid seq) then
    rows.map (fun c => if sameKey c pid seq then updCall side role playCall difficulty c else c)
  else
    rows ++ [newCallRow pid seq side role playCall difficulty]

/-- An upsert whose payload lists every column (as in
`submitQuestionAnswerAction` and `submitRollAction`): on conflict the whole
row is replaced, otherwise it is inserted. -/
def upsertFullRow (rows : List PlayCallRow) (row : PlayCallRow) : List PlayCallRow :=
  if rows.any (fun c => sameKey c row.player_id row.seq) then
    rows.map (fun c => if sameKey c row.player_id row.seq then row else c)
  else rows ++ [row]

/-- Model of `submitPlayCallAction`.  Note on the guard: the source tests
`!["play_call", "question", null].includes(game.play_subphase ?? "")`; since
`?? ""` turns a null subphase into `""`, which is not `null` and not one of
the two strings, the action in fact accepts exactly the subphases
`"play_call"` and `"question"`. -/
def submitPlayCallAction (db : GDB) (playerId : Nat) (role : String)
    (playCall difficulty : String) : Except String Unit × GDB :=
  let g := db.game
  let sp := g.play_subphase.getD ""
  if ¬ (g.phase = "drive") ∨ ¬ (sp = "play_call" ∨ sp = "question") then
    (Except.error "Not accepting play calls right now.", db)
  else
    match findPlayer db playerId with
    | none => (Except.error "Player not found.", db)
    | some player =>
      let expectedSide := if role = "offense" then g.offense_side else g.defense_side
      if ¬ (player.side = expectedSide) then
        (Except.error "You are not on this side for the current play.", db)
      else
        let currentSeq := g.current_play_seq.getD 1
        let pcs := upsertCallRow db.play_calls playerId currentSeq player.side role
          playCall difficulty
        let calls := pcs.filter (fun c => c.seq == currentSeq)
        let offenseDone := calls.any (fun c => c.role == "offense")
        let defenseDone := calls.any (fun c => c.role == "defense")
        let newSub := if offenseDone && defenseDone then "question" else "play_call"
        let g1 := { g with play_subphase := some newSub }
        (Except.ok (), { db with game := g1, play_calls := pcs })

/-- The `targetRole` computation shared by the answer/roll/continue actions:
`forSide ?? (side === offense ? "offense" : side === defense ? "defense" : "offense")`. -/
def targetRoleFor (g : Game) (player : Player) (forSide : Option String) : String :=
  forSide.getD
    (if player.side = g.offense_side then "offense"
     else if player.side = g.defense_side then "defense" else "offense")

/-- The row upserted by `submitQuestionAnswerAction`: every column appears
in its payload, so on conflict the whole row is replaced.  The play call,
difficulty, stored roll and readiness flag are re-derived from the current
rows exactly as in the source. -/
def answerRow (db : GDB) (playerId : Nat) (player : Player) (isCorrect : Bool)
    (forSide : Option String) : PlayCallRow :=
  let g := db.game
  let seq := g.current_play_seq.getD 1
  let calls := db.play_calls.filter (fun c => c.seq == seq)
  let offenseCall := findRole calls "offense"
  let defenseCall := findRole calls "defense"
  let offensePlay := (offenseCall.bind (fun c => c.play_call)).getD "Run"
  let offenseDiff := (offenseCall.bind (fun c => c.difficulty)).getD "easy"
  let defensePlay := (defenseCall.bind (fun c => c.play_call)).getD "Pass D"
  let targetRole := targetRoleFor g player forSide
  let existing := findRole calls targetRole
  { player_id := playerId
    side := player.side
    role := targetRole
    play_call := some (if targetRole = "offense" then offensePlay else defensePlay)
    difficulty := some (if targetRole = "offense" then offenseDiff else "n/a")
    seq := seq
    answer := some isCorrect
    roll := existing.bind (fun c => c.roll)
    ready_after_roll := (existing.map (fun c => c.ready_after_roll)).getD false }

/-- Model of `submitQuestionAnswerAction` (its `manualRoll` parameter is unused in the
source and omitted here). -/
def submitQuestionAnswerAction (db : GDB) (playerId : Nat) (isCorrect : Bool)
    (forSide : Option String) : Except String Unit × GDB :=
  let g := db.game
  if ¬ (g.phase = "drive") ∨ ¬ (g.play_subphase = some "question") then
    (Except.error "Not accepting answers right now.", db)
  else
    match findPlayer db playerId with
    | none => (Except.error "Player not found.", db)
    | some player =>
      let isRef := player.role = "ref"
      if ¬ isRef ∧ ¬ (player.side = g.offense_side) ∧ ¬ (player.side = g.defense_side) then
        (Except.error "Not part of this play.", db)
      else
        let seq := g.current_play_seq.getD 1
        let pcs := upsertFullRow db.play_calls (answerRow db playerId player isCorrect forSide)
        let answers := pcs.filter (fun c => c.seq == seq)
        let offenseAnswer := findRole answers "offense"
        let defenseAnswer := findRole answers "defense"
        if (offenseAnswer.bind (fun c => c.answer)).isSome ∧
            (defenseAnswer.bind (fun c => c.answer)).isSome then
          (Except.ok (), { db with game := { g with play_subphase := some "rolls" },
                                   play_calls := pcs })
        else
          (Except.ok (), { db with play_calls := pcs })

/-- The row upserted by `submitRollAction`: every column appears in its
payload.  The roll value is the manual roll if given, otherwise a fresh
difficulty-based draw for the offense or a d4 for the defense. -/
def rollRow (db : GDB) (playerId : Nat) (player : Player) (manualRoll : Option Int)
    (forSide : Option String) (s : RS) : PlayCallRow :=
  let g := db.game
  let seq := g.current_play_seq.getD 1
  let calls := db.play_calls.filter (fun c => c.seq == seq)
  let offenseCall := findRole calls "offense"
  let defenseCall := findRole calls "defense"
  let targetRole := targetRoleFor g player forSide
  let existing := findRole calls targetRole
  let offenseDiff := (offenseCall.bind (fun c => c.difficulty)).getD "easy"
  let offensePlay := (offenseCall.bind (fun c => c.play_call)).getD "Run"
  let defensePlay := (defenseCall.bind (fun c => c.play_call)).getD "Pass D"
  let rollVal :=
    match manualRoll with
    | some v => v
    | none =>
      if targetRole = "offense" then (rollByDifficulty offenseDiff s).1
      else (randomInt 1 4 s).1
  { player_id := playerId
    side := player.side
    role := targetRole
    play_call := some (if targetRole = "offense" then offensePlay else defensePlay)
    difficulty := some (if targetRole = "offense" then offenseDiff else "n/a")
    seq := seq
    answer := existing.bind (fun c => c.answer)
    roll := some rollVal
    ready_after_roll := (existing.map (fun c => c.ready_after_roll)).getD false }

/-- Model of `submitRollAction`. -/
def submitRollAction (db : GDB) (playerId : Nat) (manualRoll : Option Int)
    (forSide : Option String) (s : RS) : Except String Unit × GDB :=
  let g := db.game
  if ¬ (g.phase = "drive") ∨ ¬ (g.play_subphase = some "rolls") then
    (Except.error "Not accepting rolls right now.", db)
  else
    match findPlayer db playerId with
    | none => (Except.error "Player not found.", db)
    | some player =>
      let seq := g.current_play_seq.getD 1
      let calls := db.play_calls.filter (fun c => c.seq == seq)
      let offenseCall := findRole calls "offense"
      let defenseCall := findRole calls "defense"
      let targetRole := targetRoleFor g player forSide
      let existing := findRole calls targetRole
      if (existing.bind (fun c => c.roll)).isSome then
        (Except.error "Roll already submitted for this side.", db)
      else
        let pcs := upsertFullRow db.play_calls (rollRow db playerId player manualRoll forSide s)
        let updatedCalls := pcs.filter (fun c => c.seq == seq)
        let offenseRoll := (findRole updatedCalls "offense").bind (fun c => c.roll)
        let defenseRoll := (findRole updatedCalls "defense").bind (fun c => c.roll)
        if offenseRoll.isSome ∧ defenseRoll.isSome then
          (Except.ok (), { db with game := { g with play_subphase := some "rolls_done" },
                                   play_calls := pcs })
        else
          (Except.ok (), { db with play_calls := pcs })

/-- Model of `continueAfterRollAction`: records `ready_after_roll` for the target role
and calls `finalizePlayResolution` once both sides are ready. -/
def continueAfterRollAction (db : GDB) (playerId : Nat) (forSide : Option String)
    (s : RS) : Except String Unit × GDB :=
  let g := db.game
  if ¬ (g.phase = "drive") ∨ ¬ (g.play_subphase = some "rolls_done") then
    (Except.error "Not ready to resolve yet.", db)
  else
    match findPlayer db playerId with
    | none => (Except.error "Player not found.", db)
    | some player =>
      let seq := g.current_play_seq.getD 1
      let targetRole := targetRoleFor g player forSide
      let pcs := db.play_calls.map (fun c =>
        if c.seq == seq && c.role == targetRole then { c with ready_after_roll := true } else c)
      let readiness := pcs.filter (fun c => c.seq == seq)
      let offenseReady := readiness.any (fun r => r.role == "offense" && r.ready_after_roll)
      let defenseReady := readiness.any (fun r => r.role == "defense" && r.ready_after_roll)
      let db1 := { db with play_calls := pcs }
      if offenseReady && defenseReady then finalizePlayResolution db1 seq s
      else (Except.ok (), db1)

/-! ## Coin toss and drive setup actions -/

/-- Model of `startCoinToss`: unconditionally writes the coin-toss setup. -/
def startCoinToss (db : GDB) : GDB :=
  { db with game :=
    { db.game with
      phase := "coin_toss"
      clock_seconds := 900
      play_clock_seconds := 40
      down := 1
      distance := 10
      yard_line := 25
      possession_side := none
      offense_side := none
      defense_side := none
      play_subphase := none
      toss_result := none
      toss_winner_side := none
      toss_choice := none } }

/-- Model of `resolveCoinTossAction`: flips the coin (the `Math.random() < 0.5` draw is
the `coinIsHeads` argument) and writes the full kickoff setup, with no check
of the current phase. -/
def resolveCoinTossAction (db : GDB) (awayCall : String) (winnerChoice : String)
    (coinIsHeads : Bool) : Except String (String × Side × String) × GDB :=
  let coin := if coinIsHeads then "heads" else "tails"
  let winner := if coin = awayCall then Side.away else Side.home
  let other := if winner = Side.home then Side.away else Side.home
  let possession :=
    if winnerChoice = "receive" then winner else if winnerChoice = "kick" then other else other
  let offense_side := possession
  let defense_side := if offense_side = Side.home then Side.away else Side.home
  let second_half_kickoff_side := if winnerChoice = "defer" then winner else other
  let g1 :=
    { db.game with
      toss_result := some coin
      toss_winner_side := some winner
      toss_choice := some winnerChoice
      possession_side := some possession
      offense_side := some offense_side
      defense_side := some defense_side
      phase := "kickoff"
      down := 1
      distance := 10
      yard_line := 25
      clock_seconds := 900
      play_clock_seconds := 40
      play_subphase := none
      last_play_id := none
      second_half_kickoff_side := some second_half_kickoff_side }
  (Except.ok (coin, winner, winnerChoice), { db with game := g1 })

/-- Model of `flipCoinAction`: only the away side or the ref may call the toss; on
success the phase becomes `coin_toss_choice` with no check of the current
phase. -/
def flipCoinAction (db : GDB) (requesterId : Nat) (awayCall : String)
    (coinIsHeads : Bool) : Except String (String × Side) × GDB :=
  match findPlayer db requesterId with
  | none => (Except.error "Player not found.", db)
  | some player =>
    if ¬ (player.side = some Side.away ∨ player.role = "ref") then
      (Except.error "Only away side (or ref) can call the toss.", db)
    else
      let coin := if coinIsHeads then "heads" else "tails"
      let winner := if coin = awayCall then Side.away else Side.home
      let g1 :=
        { db.game with
          toss_result := some coin
          toss_winner_side := some winner
          toss_choice := none
          phase := "coin_toss_choice" }
      (Except.ok (coin, winner), { db with game := g1 })

/-- Model of `chooseTossOptionAction`: only the toss winner's side or the ref may
choose; on success the phase becomes `kickoff` with no check of the current
phase. -/
def chooseTossOptionAction (db : GDB) (requesterId : Nat) (choice : String) :
    Except String Unit × GDB :=
  let g := db.game
  match g.toss_winner_side with
  | none => (Except.error "Toss not resolved yet.", db)
  | some winner =>
    match findPlayer db requesterId with
    | none => (Except.error "Player not found.", db)
    | some player =>
      if ¬ (player.role = "ref" ∨ player.side = some winner) then
        (Except.error "Only the toss winner (or ref) can choose.", db)
      else
        let other := if winner = Side.home then Side.away else Side.home
        let possession :=
          if choice = "receive" then winner else if choice = "kick" then other else other
        let offense_side := possession
        let defense_side := if offense_side = Side.home then Side.away else Side.home
        let second_half_kickoff_side := if choice = "defer" then winner else other
        let g1 :=
          { g with
            toss_choice := some choice
            possession_side := some possession
            offense_side := some offense_side
            defense_side := some defense_side
            second_half_kickoff_side := some second_half_kickoff_side
            phase := "kickoff"
            down := 1
            distance := 10
            yard_line := 25
            clock_seconds := 900
            play_clock_seconds := 40
            play_subphase := none
            last_play_id := none }
        (Except.ok (), { db with game := g1 })

/-- Model of `resolveKickoffTouchbackAction`: requires the kickoff phase and starts the
drive at the 25. -/
def resolveKickoffTouchbackAction (db : GDB) : Except String Unit × GDB :=
  let g := db.game
  if ¬ (g.phase = "kickoff") then
    (Except.error "Not in kickoff phase.", db)
  else
    let possession := g.possession_side.getD Side.home
    let offense_side := possession
    let defense_side := if offense_side = Side.home then Side.away else Side.home
    let g1 :=
      { g with
        phase := "drive"
        offense_side := some offense_side
        defense_side := some defense_side
        down := 1
        distance := 10
        yard_line := 25
        play_subphase := some "play_call" }
    (Except.ok (), { db with game := g1 })

/-- Model of `resetDriveAction`: ref-only; rewrites the drive state with no check of
the current phase and deletes all of the game's play calls. -/
def resetDriveAction (db : GDB) (requesterId : Nat) (optPossession : Option Side)
    (optYardLine : Option Int) : Except String Unit × GDB :=
  match findPlayer db requesterId with
  | none => (Except.error "Only the ref can reset the drive.", db)
  | some requester =>
    if ¬ (requester.role = "ref") then
      (Except.error "Only the ref can reset the drive.", db)
    else
      let g := db.game
      let possession := optPossession.getD (g.possession_side.getD Side.home)
      let offense_side := possession
      let defense_side := if offense_side = Side.home then Side.away else Side.home
      let yard_line := optYardLine.getD 25
      let g1 :=
        { g with
          phase := "drive"
          play_subphase := some "play_call"
          down := 1
          distance := 10
          yard_line := yard_line
          possession_side := some possession
          offense_side := some offense_side
          defense_side := some defense_side
          current_play_seq := some 1 }
      (Except.ok (), { db with game := g1, play_calls := [] })

/-! ## Lobby (src/app/actions/lobby.ts, `joinLobbyAction`)

`joinLobbyAction` looks a game up by code across all games, so this model
keeps a multi-game table. -/

/-- The `games` columns selected by `joinLobbyAction`. -/
structure LobbyGame where
  id : Nat
  code : String
  status : String
  lobby_locked : Bool
deriving Repr, DecidableEq

/-- The `players` columns written by `joinLobbyAction`. -/
structure LobbyPlayer where
  id : Nat
  game_id : Nat
  display_name : String
  role : String
  ready : Bool
deriving Repr, DecidableEq

/-- The lobby-level snapshot: all games and all players. -/
structure LobbyDB where
  games : List LobbyGame
  players : List LobbyPlayer
deriving Repr, DecidableEq

/-- Model of `code.trim().toUpperCase()`. -/
def normalizeCode (code : String) : String :=
  upperStr (trimStr code)

/-- Model of `joinLobbyAction(displayName, code)`: the fresh player id the database
would generate is passed as `newId`.  `.single()` on the code/status lookup
errors unless exactly one row matches; the duplicate-name branch models the
`unique_game_display_name` constraint rejecting the insert. -/
def joinLobbyAction (db : LobbyDB) (displayName code : String) (newId : Nat) :
    Except String Unit × LobbyDB :=
  if trimStr displayName = "" then
    (Except.error "Display name is required.", db)
  else if trimStr code = "" then
    (Except.error "Game code is required.", db)
  else
    let normalizedCode := normalizeCode code
    let matchRows :=
      (db.games.filter (fun g => g.code == normalizedCode)).filter
        (fun g => g.status == "lobby_open")
    match matchRows with
    | [game] =>
      if game.lobby_locked then
        (Except.error "Lobby is locked.", db)
      else if db.players.any (fun p =>
          p.game_id == game.id && p.display_name == trimStr displayName) then
        (Except.error "Name already taken in this lobby.", db)
      else
        let player : LobbyPlayer :=
          { id := newId, game_id := game.id, display_name := trimStr displayName,
            role := "player", ready := false }
        (Except.ok (), { db with players := db.players ++ [player] })
    | _ => (Except.error "Lobby not found.", db)

/-! ## Concrete snapshots used by witnesses and counterexamples -/

/-- A drive-phase game row used as a base for concrete scenarios. -/
def gameW : Game :=
  { status := "in_progress", phase := "drive", play_subphase := some "rolls_done",
    possession_side := some Side.home, offense_side := some Side.home,
    defense_side := some Side.away, down := 1, distance := 10, yard_line := 50,
    score_home := 0, score_away := 0, clock_seconds := 900, play_clock_seconds := 40,
    toss_result := none, toss_winner_side := none, toss_choice := none,
    second_half_kickoff_side := none, current_play_seq := some 1,
    last_play_id := none, lobby_locked := false }

/-- Player 1 (home), player 2 (away), player 3 (ref). -/
def playersW : List Player :=
  [{ id := 1, side := some Side.home, role := "player" },
   { id := 2, side := some Side.away, role := "player" },
   { id := 3, side := none, role := "ref" }]

/-- A completed offense play-call row for sequence 1. -/
def offRowW : PlayCallRow :=
  { player_id := 1, side := some Side.home, role := "offense", play_call := some "Run",
    difficulty := some "easy", seq := 1, answer := some true, roll := some 4,
    ready_after_roll := true }

/-- A completed defense play-call row for sequence 1. -/
def defRowW : PlayCallRow :=
  { player_id := 2, side := some Side.away, role := "defense", play_call := some "Pass D",
    difficulty := some "n/a", seq := 1, answer := some false, roll := some 1,
    ready_after_roll := true }

/-- A ready-to-resolve snapshot at midfield. -/
def dbW : GDB :=
  { game := gameW, players := playersW, play_calls := [offRowW, defRowW], plays := [] }

/-- The same snapshot with the ball at the opponent's 1-yard line. -/
def dbTD : GDB :=
  { dbW with game := { gameW with yard_line := 99 } }

/-- An all-zero random tape. -/
def rsW : RS := ⟨fun _ => 0, 0⟩

/-- The plays-log row produced on the midfield snapshot. -/
def playRowW : PlayRow :=
  { seq := 1, offense_side := some Side.home, defense_side := some Side.away,
    call_offense := "Run", call_defense := "Pass D", difficulty := "easy",
    offense_roll := 4, defense_roll := 1, offense_correct := true,
    defense_correct := false, yards := 9, turnover := false,
    result_text := "Gained 9 yards" }

/-- A snapshot with the toss resolved for the home side. -/
def dbToss : GDB :=
  { dbW with game := { gameW with toss_winner_side := some Side.home } }

/-- A snapshot in the rolls subphase with the offense roll already stored. -/
def dbRolls : GDB :=
  { dbW with game := { gameW with play_subphase := some "rolls" } }

/-- A lobby table with one in-progress game and one open locked game. -/
def lobbyDBW : LobbyDB :=
  { games := [{ id := 1, code := "ABC123", status := "in_progress", lobby_locked := false },
              { id := 2, code := "XYZ789", status := "lobby_open", lobby_locked := true }],
    players := [] }

/-- A fresh drive snapshot awaiting play calls, with an empty table. -/
def dbFresh : GDB :=
  { game := { gameW with play_subphase := some "play_call" }, players := playersW,
    play_calls := [], plays := [] }

/-- The offense row before its answer is recorded. -/
def offRowQ : PlayCallRow :=
  { offRowW with answer := none, roll := none, ready_after_roll := false }

/-- The defense row before its answer is recorded. -/
def defRowQ : PlayCallRow :=
  { defRowW with answer := none, roll := none, ready_after_roll := false }

/-- The offense row before its roll is recorded. -/
def offRowR : PlayCallRow :=
  { offRowW with roll := none, ready_after_roll := false }

/-- The defense row before its roll is recorded. -/
def defRowR : PlayCallRow :=
  { defRowW with roll := none, ready_after_roll := false }

/-- A question-subphase snapshot with both calls in and no answers yet. -/
def dbQ : GDB :=
  { dbW with
      game := { gameW with play_subphase := some "question" }
      play_calls := [offRowQ, defRowQ] }

/-- A rolls-subphase snapshot with answers in and no rolls yet. -/
def dbR : GDB :=
  { dbW with
      game := { gameW with play_subphase := some "rolls" }
      play_calls := [offRowR, defRowR] }

/-- A rolls-done snapshot with neither side ready to continue. -/
def dbC : GDB :=
  { dbW with
      play_calls := [{ offRowW with ready_after_roll := false },
                     { defRowW with ready_after_roll := false }] }

/-- Modelled from the spec's claimed order: the successor relation on
phase/subphase states, `lobby → coin_toss → coin_toss_choice → kickoff →
drive(play_call → question → rolls → rolls_done) → kickoff | finished`. -/
def specPhaseSucc (a b : String × Option String) : Bool :=
  match a, b with
  | ("lobby", _), ("coin_toss", _) => true
  | ("coin_toss", _), ("coin_toss_choice", _) => true
  | ("coin_toss_choice", _), ("kickoff", _) => true
  | ("kickoff", _), ("drive", some "play_call") => true
  | ("drive", some "play_call"), ("drive", some "question") => true
  | ("drive", some "question"), ("drive", some "rolls") => true
  | ("drive", some "rolls"), ("drive", some "rolls_done") => true
  | ("drive", some "rolls_done"), ("kickoff", _) => true
  | ("drive", some "rolls_done"), ("finished", _) => true
  | _, _ => false

/-- A kickoff-phase snapshot. -/
def dbKick : GDB :=
  { dbW with game := { gameW with phase := "kickoff", play_subphase := none } }

/-! ## Helper lemmas -/

lemma tdAway_not_tdHome {g : Game} {y : Int} (h : tdAway g y) : ¬ tdHome g y := by
  rintro ⟨h1, -⟩
  rcases h with ⟨h2, -⟩
  have := h1.symm.trans h2
  simp at this

/-- The clamped new yard line, written in terms of the recorded gain. -/
lemma newYardLine_eq_gained (g : Game) (y : Int) :
    newYardLine g y =
      (if g.offense_side = some Side.home then g.yard_line + gainedYards g y
       else g.yard_line - gainedYards g y) := by
  simp only [gainedYards]
  split_ifs <;> ring

/-- The yard line written by `resolveOutcome` always lies in `[0, 100]`. -/
lemma resolveOutcome_yard_line_bounds (g : Game) (y : Int) :
    0 ≤ (resolveOutcome g y).1.yard_line ∧ (resolveOutcome g y).1.yard_line ≤ 100 := by
  simp only [resolveOutcome, newYardLine]
  split_ifs <;> simp

/-! ## Claims about the resolution arithmetic -/

/-- Claim C2: in `finalizePlayResolution`, if the home offense's new yard
line reaches 100 (resp. the away offense's reaches 0), the scoring side
gains exactly 7, the phase becomes kickoff, possession and offense pass to
the non-scoring side, and down/distance/yard line reset to 1/10/25;
otherwise both scores are unchanged. -/
theorem finalize_scoring_rule (g : Game) (yards : Int) :
    (tdHome g yards →
      (resolveOutcome g yards).1.score_home = g.score_home + 7 ∧
      (resolveOutcome g yards).1.score_away = g.score_away ∧
      (resolveOutcome g yards).1.phase = "kickoff" ∧
      (resolveOutcome g yards).1.possession_side = some Side.away ∧
      (resolveOutcome g yards).1.offense_side = some Side.away ∧
      (resolveOutcome g yards).1.down = 1 ∧
      (resolveOutcome g yards).1.distance = 10 ∧
      (resolveOutcome g yards).1.yard_line = 25) ∧
    (tdAway g yards →
      (resolveOutcome g yards).1.score_away = g.score_away + 7 ∧
      (resolveOutcome g yards).1.score_home = g.score_home ∧
      (resolveOutcome g yards).1.phase = "kickoff" ∧
      (resolveOutcome g yards).1.possession_side = some Side.home ∧
      (resolveOutcome g yards).1.offense_side = some Side.home ∧
      (resolveOutcome g yards).1.down = 1 ∧
      (resolveOutcome g yards).1.distance = 10 ∧
      (resolveOutcome g yards).1.yard_line = 25) ∧
    (¬ tdHome g yards ∧ ¬ tdAway g yards →
      (resolveOutcome g yards).1.score_home = g.score_home ∧
      (resolveOutcome g yards).1.score_away = g.score_away) := by
  refine ⟨fun h => ?_, fun h => ?_, fun h => ?_⟩
  · have hA : ¬ tdAway g yards := fun ha => tdAway_not_tdHome ha h
    simp [resolveOutcome, h, hA]
  · have hH : ¬ tdHome g yards := tdAway_not_tdHome h
    simp [resolveOutcome, h, hH]
  · obtain ⟨hH, hA⟩ := h
    simp [resolveOutcome, hH, hA]

/-- Witness for `finalize_scoring_rule` at a concrete touchdown play. -/
theorem finalize_scoring_rule_witness :
    tdHome
      { status := "in_progress", phase := "drive", play_subphase := some "rolls_done",
        possession_side := some Side.home, offense_side := some Side.home,
        defense_side := some Side.away, down := 1, distance := 10, yard_line := 99,
        score_home := 0, score_away := 0, clock_seconds := 900, play_clock_seconds := 40,
        toss_result := none, toss_winner_side := none, toss_choice := none,
        second_half_kickoff_side := none, current_play_seq := some 1,
        last_play_id := none, lobby_locked := false } 5 ∧
    (resolveOutcome
      { status := "in_progress", phase := "drive", play_subphase := some "rolls_done",
        possession_side := some Side.home, offense_side := some Side.home,
        defense_side := some Side.away, down := 1, distance := 10, yard_line := 99,
        score_home := 0, score_away := 0, clock_seconds := 900, play_clock_seconds := 40,
        toss_result := none, toss_winner_side := none, toss_choice := none,
        second_half_kickoff_side := none, current_play_seq := some 1,
        last_play_id := none, lobby_locked := false } 5).1.score_home = 0 + 7 := by
  refine ⟨by decide, ?_⟩
  exact ((finalize_scoring_rule _ 5).1 (by decide)).1

/-- Claim C7: a play with neither a turnover on downs (first down achieved,
or incremented down still at most 4) nor a touchdown leaves
`possession_side`, `offense_side` and `defense_side` unchanged.  The
hypothesis `hposs` is the reachability invariant `possession_side =
offense_side`, maintained by every writer of these columns. -/
theorem possession_frame_preserved (g : Game) (yards : Int)
    (hposs : g.possession_side = g.offense_side)
    (hnoturn : g.distance ≤ gainedYards g yards ∨ g.down + 1 ≤ 4)
    (hH : ¬ tdHome g yards) (hA : ¬ tdAway g yards) :
    (resolveOutcome g yards).1.possession_side = g.possession_side ∧
    (resolveOutcome g yards).1.offense_side = g.offense_side ∧
    (resolveOutcome g yards).1.defense_side = g.defense_side := by
  have h4 : ¬ (4 < (if g.distance ≤ gainedYards g yards then (1 : Int) else g.down + 1)) := by
    rcases hnoturn with h | h <;> split_ifs <;> omega
  simp [resolveOutcome, hH, hA, h4, hposs]

/-- Witness for `possession_frame_preserved` on the midfield snapshot. -/
theorem possession_frame_preserved_witness :
    (gameW.possession_side = gameW.offense_side ∧
      (gameW.distance ≤ gainedYards gameW 9 ∨ gameW.down + 1 ≤ 4) ∧
      ¬ tdHome gameW 9 ∧ ¬ tdAway gameW 9) ∧
    (resolveOutcome gameW 9).1.possession_side = gameW.possession_side ∧
    (resolveOutcome gameW 9).1.offense_side = gameW.offense_side ∧
    (resolveOutcome gameW 9).1.defense_side = gameW.defense_side := by
  refine ⟨⟨by decide, Or.inr (by decide), by decide, by decide⟩, ?_⟩
  exact possession_frame_preserved gameW 9 (by decide) (Or.inr (by decide))
    (by decide) (by decide)

/-- Claim C8: the computed yardage of every resolved play is clamped to
`[-20, 60]`, and the yard line written back to the games row lies in
`[0, 100]`, whatever the play calls, difficulties, answers and rolls. -/
theorem yards_clamped_invariant (a b c : String) (oc dc : Bool) (dO dD : Int) (s : RS)
    (db : GDB) (seq : Int) (sf : RS) :
    (-20 ≤ (computeYards a b c oc dc dO dD s).1 ∧ (computeYards a b c oc dc dO dD s).1 ≤ 60) ∧
    ((finalizePlayResolution db seq sf).1.isOk = true →
      0 ≤ (finalizePlayResolution db seq sf).2.game.yard_line ∧
      (finalizePlayResolution db seq sf).2.game.yard_line ≤ 100) := by
  constructor
  · rcases h : unclampedYards a b c oc dc dO dD s with ⟨y, s4⟩
    simp [computeYards, h]
  · intro hok
    unfold finalizePlayResolution at hok ⊢
    rcases hoff : findRole (db.play_calls.filter (fun c => c.seq == seq)) "offense" with _ | off
    · simp [hoff, Except.isOk, Except.toBool] at hok
    rcases hdef : findRole (db.play_calls.filter (fun c => c.seq == seq)) "defense" with _ | dfn
    · simp [hoff, hdef, Except.isOk, Except.toBool] at hok
    rcases hdie : dieRolls off dfn sf with ⟨⟨dO2, dD2⟩, s2⟩
    rcases hy : computeYards (off.play_call.getD "Run") (off.difficulty.getD "easy")
      (dfn.play_call.getD "Pass D") (off.answer.getD false) (dfn.answer.getD false)
      dO2 dD2 s2 with ⟨y, s3⟩
    rcases hro : resolveOutcome db.game y with ⟨g1, gained, turn⟩
    have hb := resolveOutcome_yard_line_bounds db.game y
    rw [hro] at hb
    simp [hoff, hdef, hdie, hy, hro]
    exact hb

/-- Witness for `yards_clamped_invariant` on the ready-to-resolve snapshot. -/
theorem yards_clamped_invariant_witness :
    (-20 ≤ (computeYards "Run" "easy" "Pass D" true false 4 1 rsW).1 ∧
      (computeYards "Run" "easy" "Pass D" true false 4 1 rsW).1 ≤ 60) ∧
    ((finalizePlayResolution dbW 1 rsW).1.isOk = true ∧
      0 ≤ (finalizePlayResolution dbW 1 rsW).2.game.yard_line ∧
      (finalizePlayResolution dbW 1 rsW).2.game.yard_line ≤ 100) := by
  have h := yards_clamped_invariant "Run" "easy" "Pass D" true false 4 1 rsW dbW 1 rsW
  exact ⟨h.1, by decide, h.2 (by decide)⟩

/-- On a touchdown, `resolveOutcome` always writes phase `kickoff`. -/
lemma resolveOutcome_phase_td (g : Game) (y : Int) (h : tdHome g y ∨ tdAway g y) :
    (resolveOutcome g y).1.phase = "kickoff" := by
  rcases h with h | h
  · simp [resolveOutcome, h]
  · simp [resolveOutcome, h, tdAway_not_tdHome h]

/-- The gain recorded by `resolveOutcome` is `gainedYards`. -/
lemma resolveOutcome_gained (g : Game) (y : Int) :
    (resolveOutcome g y).2.1 = gainedYards g y := by
  simp [resolveOutcome]

/-- Down/distance/possession behaviour of `resolveOutcome` on plays without
a touchdown. -/
lemma resolveOutcome_no_td (g : Game) (y : Int)
    (hH : ¬ tdHome g y) (hA : ¬ tdAway g y) :
    (g.distance ≤ gainedYards g y →
      (resolveOutcome g y).1.down = 1 ∧ (resolveOutcome g y).1.distance = 10) ∧
    (gainedYards g y < g.distance →
      (g.down + 1 ≤ 4 →
        (resolveOutcome g y).1.down = g.down + 1 ∧
        (resolveOutcome g y).1.distance = g.distance - gainedYards g y) ∧
      (4 < g.down + 1 →
        (resolveOutcome g y).2.2 = true ∧
        (resolveOutcome g y).1.possession_side = g.defense_side ∧
        (resolveOutcome g y).1.offense_side = g.defense_side ∧
        (resolveOutcome g y).1.defense_side = g.offense_side ∧
        (resolveOutcome g y).1.down = 1 ∧
        (resolveOutcome g y).1.distance = 10 ∧
        (resolveOutcome g y).1.yard_line = newYardLine g y)) := by
  refine ⟨fun hfd => ?_, fun hlt => ⟨fun hle => ?_, fun hgt => ?_⟩⟩
  · simp [resolveOutcome, hH, hA, hfd]
  · have hc : ¬ (g.distance ≤ gainedYards g y) := by omega
    have hc2 : ¬ (4 < g.down + 1) := by omega
    simp [resolveOutcome, hH, hA, hc, hc2, hlt]
  · have hc : ¬ (g.distance ≤ gainedYards g y) := by omega
    simp [resolveOutcome, hH, hA, hc, hgt, hlt]

/-- Claim C1 (amended): for a play resolved during a drive that does not
score a touchdown, the recorded gain `p.yards` drives the next down and
distance: a gain of at least the distance yields down 1 and distance 10;
otherwise the down increments and the distance shrinks by the gain, and if
the incremented down would exceed 4 the possession/offense/defense flip to
the former defense with down 1, distance 10, and the yard line kept at the
post-play spot. -/
theorem finalize_down_distance_rule (db : GDB) (seq : Int) (s : RS) (p : PlayRow)
    (hdrive : db.game.phase = "drive")
    (hp : (finalizePlayResolution db seq s).2.plays = db.plays ++ [p])
    (hnoTD : (finalizePlayResolution db seq s).2.game.phase ≠ "kickoff") :
    (db.game.distance ≤ p.yards →
      (finalizePlayResolution db seq s).2.game.down = 1 ∧
      (finalizePlayResolution db seq s).2.game.distance = 10) ∧
    (p.yards < db.game.distance →
      (db.game.down + 1 ≤ 4 →
        (finalizePlayResolution db seq s).2.game.down = db.game.down + 1 ∧
        (finalizePlayResolution db seq s).2.game.distance = db.game.distance - p.yards) ∧
      (4 < db.game.down + 1 →
        p.turnover = true ∧
        (finalizePlayResolution db seq s).2.game.possession_side = db.game.defense_side ∧
        (finalizePlayResolution db seq s).2.game.offense_side = db.game.defense_side ∧
        (finalizePlayResolution db seq s).2.game.defense_side = db.game.offense_side ∧
        (finalizePlayResolution db seq s).2.game.down = 1 ∧
        (finalizePlayResolution db seq s).2.game.distance = 10 ∧
        (finalizePlayResolution db seq s).2.game.yard_line =
          (if db.game.offense_side = some Side.home then db.game.yard_line + p.yards
           else db.game.yard_line - p.yards))) := by
  unfold finalizePlayResolution at hp hnoTD ⊢
  rcases hoff : findRole (db.play_calls.filter (fun c => c.seq == seq)) "offense" with _ | off
  · simp [hoff] at hp
  rcases hdef : findRole (db.play_calls.filter (fun c => c.seq == seq)) "defense" with _ | dfn
  · simp [hoff, hdef] at hp
  rcases hdie : dieRolls off dfn s with ⟨⟨dO2, dD2⟩, s2⟩
  rcases hy : computeYards (off.play_call.getD "Run") (off.difficulty.getD "easy")
    (dfn.play_call.getD "Pass D") (off.answer.getD false) (dfn.answer.getD false)
    dO2 dD2 s2 with ⟨y, s3⟩
  rcases hro : resolveOutcome db.game y with ⟨g1, gained, turn⟩
  simp only [hoff, hdef, hdie, hy, hro] at hp hnoTD ⊢
  have hg1 : g1 = (resolveOutcome db.game y).1 := by rw [hro]
  have hturn : turn = (resolveOutcome db.game y).2.2 := by rw [hro]
  have hgained : gained = gainedYards db.game y := by
    rw [show gained = (resolveOutcome db.game y).2.1 from by rw [hro], resolveOutcome_gained]
  have hpr := List.append_cancel_left hp
  have hpeq : p.yards = gained ∧ p.turnover = turn := by
    cases hpr
    exact ⟨rfl, rfl⟩
  have hH : ¬ tdHome db.game y := by
    intro h
    exact hnoTD (by rw [hg1, resolveOutcome_phase_td db.game y (Or.inl h)])
  have hA : ¬ tdAway db.game y := by
    intro h
    exact hnoTD (by rw [hg1, resolveOutcome_phase_td db.game y (Or.inr h)])
  have hmain := resolveOutcome_no_td db.game y hH hA
  rw [hpeq.1, hpeq.2, hgained, hg1, hturn]
  refine ⟨hmain.1, fun hlt => ⟨(hmain.2 hlt).1, fun hgt => ?_⟩⟩
  obtain ⟨t1, t2, t3, t4, t5, t6, t7⟩ := (hmain.2 hlt).2 hgt
  refine ⟨t1, t2, t3, t4, t5, t6, ?_⟩
  rw [t7, newYardLine_eq_gained]

/-- Counterexample to claim C1 as stated: with the ball at the home 99 and
10 to go, a 9-yard play is clamped to a 1-yard recorded gain (a touchdown),
and the resulting down/distance are 1 and 10, not the claimed increment to
down 2 with 9 to go. -/
theorem finalize_down_distance_cex :
    dbTD.game.phase = "drive" ∧ dbTD.game.down = 1 ∧ dbTD.game.distance = 10 ∧
    (finalizePlayResolution dbTD 1 rsW).1.isOk = true ∧
    (finalizePlayResolution dbTD 1 rsW).2.plays.map (fun q => q.yards) = [1] ∧
    (finalizePlayResolution dbTD 1 rsW).2.game.down = 1 ∧
    (finalizePlayResolution dbTD 1 rsW).2.game.distance = 10 ∧
    ¬ ((finalizePlayResolution dbTD 1 rsW).2.game.down = dbTD.game.down + 1) ∧
    ¬ ((finalizePlayResolution dbTD 1 rsW).2.game.distance = dbTD.game.distance - 1) := by
  decide

/-- Witness for `finalize_down_distance_rule` on the midfield snapshot. -/
theorem finalize_down_distance_rule_witness :
    dbW.game.phase = "drive" ∧
    (finalizePlayResolution dbW 1 rsW).2.plays = dbW.plays ++ [playRowW] ∧
    (finalizePlayResolution dbW 1 rsW).2.game.phase ≠ "kickoff" ∧
    (finalizePlayResolution dbW 1 rsW).2.game.down = dbW.game.down + 1 ∧
    (finalizePlayResolution dbW 1 rsW).2.game.distance = dbW.game.distance - playRowW.yards := by
  refine ⟨by decide, by decide, by decide, ?_⟩
  exact ((finalize_down_distance_rule dbW 1 rsW playRowW (by decide) (by decide)
    (by decide)).2 (by decide)).1 (by decide)

/-! ## Authorization gating -/

/-- Claim C6: side/role-gated actions reject unauthorized callers without
mutating anything: `submitPlayCallAction` when the caller's side is not the
side assigned to the claimed role, `flipCoinAction` unless the caller is on
the away side or a ref, and `chooseTossOptionAction` unless the caller is on
the toss winner's side or a ref. -/
theorem role_side_gating_rejects :
    (∀ (db : GDB) (pid : Nat) (role playCall difficulty : String) (player : Player),
      findPlayer db pid = some player →
      ¬ (player.side = (if role = "offense" then db.game.offense_side else db.game.defense_side)) →
      (submitPlayCallAction db pid role playCall difficulty).1.isOk = false ∧
      (submitPlayCallAction db pid role playCall difficulty).2 = db) ∧
    (∀ (db : GDB) (rid : Nat) (awayCall : String) (coin : Bool) (player : Player),
      findPlayer db rid = some player →
      ¬ (player.side = some Side.away ∨ player.role = "ref") →
      (flipCoinAction db rid awayCall coin).1.isOk = false ∧
      (flipCoinAction db rid awayCall coin).2 = db) ∧
    (∀ (db : GDB) (rid : Nat) (choice : String) (winner : Side) (player : Player),
      db.game.toss_winner_side = some winner →
      findPlayer db rid = some player →
      ¬ (player.role = "ref" ∨ player.side = some winner) →
      (chooseTossOptionAction db rid choice).1.isOk = false ∧
      (chooseTossOptionAction db rid choice).2 = db) := by
  refine ⟨fun db pid role playCall difficulty player hpl hside => ?_,
    fun db rid awayCall coin player hpl hperm => ?_,
    fun db rid choice winner player hw hpl hperm => ?_⟩
  · unfold submitPlayCallAction
    by_cases hguard : ¬ (db.game.phase = "drive") ∨
        ¬ ((db.game.play_subphase.getD "") = "play_call" ∨
          (db.game.play_subphase.getD "") = "question")
    · rw [if_pos hguard]
      simp [Except.isOk, Except.toBool]
    · rw [if_neg hguard]
      simp only [hpl]
      rw [if_pos hside]
      simp [Except.isOk, Except.toBool]
  · unfold flipCoinAction
    simp [hpl, hperm, Except.isOk, Except.toBool]
  · unfold chooseTossOptionAction
    simp [hw, hpl, hperm, Except.isOk, Except.toBool]

/-- Witness for `role_side_gating_rejects`: a home player submitting as
defense, calling the toss, and choosing for a toss won by home. -/
theorem role_side_gating_rejects_witness :
    ((submitPlayCallAction dbW 1 "defense" "Run" "easy").1.isOk = false ∧
      (submitPlayCallAction dbW 1 "defense" "Run" "easy").2 = dbW) ∧
    ((flipCoinAction dbW 1 "heads" true).1.isOk = false ∧
      (flipCoinAction dbW 1 "heads" true).2 = dbW) ∧
    ((chooseTossOptionAction dbToss 2 "receive").1.isOk = false ∧
      (chooseTossOptionAction dbToss 2 "receive").2 = dbToss) := by
  refine ⟨?_, ?_, ?_⟩
  · exact role_side_gating_rejects.1 dbW 1 "defense" "Run" "easy"
      { id := 1, side := some Side.home, role := "player" } (by decide) (by decide)
  · exact role_side_gating_rejects.2.1 dbW 1 "heads" true
      { id := 1, side := some Side.home, role := "player" } (by decide) (by decide)
  · exact role_side_gating_rejects.2.2 dbToss 2 "receive" Side.home
      { id := 2, side := some Side.away, role := "player" } (by decide) (by decide) (by decide)

/-- Claim C10: once a side's roll is recorded, `submitRollAction` for that
side fails with the source's error message and changes nothing. -/
theorem submitRoll_immutable (db : GDB) (pid : Nat) (manualRoll : Option Int)
    (forSide : Option String) (s : RS) (player : Player) (existing : PlayCallRow) (v : Int)
    (hpl : findPlayer db pid = some player)
    (hguard : db.game.phase = "drive" ∧ db.game.play_subphase = some "rolls")
    (hex : findRole (db.play_calls.filter (fun c => c.seq == db.game.current_play_seq.getD 1))
        (targetRoleFor db.game player forSide) = some existing)
    (hroll : existing.roll = some v) :
    (submitRollAction db pid manualRoll forSide s).1 =
      Except.error "Roll already submitted for this side." ∧
    (submitRollAction db pid manualRoll forSide s).2 = db := by
  unfold submitRollAction
  have hg : ¬ (¬ (db.game.phase = "drive") ∨ ¬ (db.game.play_subphase = some "rolls")) := by
    simp [hguard.1, hguard.2]
  rw [if_neg hg]
  simp [hpl, hex, hroll]

/-- Witness for `submitRoll_immutable`: the home player re-rolling after the
offense roll is stored. -/
theorem submitRoll_immutable_witness :
    (submitRollAction dbRolls 1 none none rsW).1 =
      Except.error "Roll already submitted for this side." ∧
    (submitRollAction dbRolls 1 none none rsW).2 = dbRolls := by
  exact submitRoll_immutable dbRolls 1 none none rsW
    { id := 1, side := some Side.home, role := "player" } offRowW 4
    (by decide) (by decide) (by decide) (by decide)

/-! ## Lobby joining -/

/-- Claim C9: `joinLobbyAction` errors and inserts no player row when the
game with the given code is not an open lobby or is locked; a player row is
inserted only for an open, unlocked lobby.  The hypothesis identifies `g`
as the unique row with that code (the schema's `unique` constraint). -/
theorem joinLobby_gate (db : LobbyDB) (name code : String) (nid : Nat) (g : LobbyGame)
    (hlookup : db.games.filter (fun x => x.code == normalizeCode code) = [g]) :
    ((¬ (g.status = "lobby_open") ∨ g.lobby_locked = true) →
      (joinLobbyAction db name code nid).1.isOk = false ∧
      (joinLobbyAction db name code nid).2 = db) ∧
    ((joinLobbyAction db name code nid).2.players ≠ db.players →
      g.status = "lobby_open" ∧ g.lobby_locked = false) := by
  unfold joinLobbyAction
  split_ifs with h1 h2
  · exact ⟨fun _ => by simp [Except.isOk, Except.toBool], fun hne => absurd rfl hne⟩
  · exact ⟨fun _ => by simp [Except.isOk, Except.toBool], fun hne => absurd rfl hne⟩
  · by_cases hst : g.status = "lobby_open"
    · have hfil : [g].filter (fun x => x.status == "lobby_open") = [g] := by simp [hst]
      simp only [hlookup, hfil]
      by_cases hlock : g.lobby_locked
      · simp only [hlock, if_true]
        exact ⟨fun _ => by simp [Except.isOk, Except.toBool], fun hne => absurd rfl hne⟩
      · simp only [hlock, Bool.false_eq_true, if_false]
        by_cases hdup : db.players.any (fun p =>
            p.game_id == g.id && p.display_name == trimStr name) = true
        · simp only [hdup, if_true]
          exact ⟨fun hbad => by
            rcases hbad with hbad | hbad
            · exact absurd hst hbad
            · exact absurd hbad (by simp [hlock]),
            fun hne => absurd rfl hne⟩
        · simp only [hdup, if_false]
          refine ⟨fun hbad => ?_, fun _ => ⟨hst, by simp [hlock]⟩⟩
          rcases hbad with hbad | hbad
          · exact absurd hst hbad
          · exact absurd hbad (by simp [hlock])
    · have hfil : [g].filter (fun x => x.status == "lobby_open") = [] := by simp [hst]
      simp only [hlookup, hfil]
      exact ⟨fun _ => by simp [Except.isOk, Except.toBool], fun hne => absurd rfl hne⟩

/-- Witness for `joinLobby_gate`: joining the in-progress game fails and
changes nothing. -/
theorem joinLobby_gate_witness :
    (joinLobbyAction lobbyDBW "Ana" "abc123" 7).1.isOk = false ∧
    (joinLobbyAction lobbyDBW "Ana" "abc123" 7).2 = lobbyDBW := by
  exact (joinLobby_gate lobbyDBW "Ana" "abc123" 7
    { id := 1, code := "ABC123", status := "in_progress", lobby_locked := false }
    (by decide)).1 (Or.inl (by decide))

/-! ## Play-call upsert idempotence -/

/-- Overwriting the payload columns twice is the same as once. -/
lemma updCall_idem (c : PlayCallRow) (side : Option Side) (role pc diff : String) :
    updCall side role pc diff (updCall side role pc diff c) = updCall side role pc diff c := rfl

/-- The payload update leaves the upsert key unchanged. -/
lemma sameKey_updCall (c : PlayCallRow) (pid : Nat) (seq : Int) (side : Option Side)
    (role pc diff : String) :
    sameKey (updCall side role pc diff c) pid seq = sameKey c pid seq := rfl

/-- The freshly inserted row matches its own key. -/
lemma sameKey_newCallRow (pid : Nat) (seq : Int) (side : Option Side)
    (role pc diff : String) :
    sameKey (newCallRow pid seq side role pc diff) pid seq = true := by
  simp [sameKey, newCallRow]

/-- The upsert `upsertCallRow` is idempotent: repeating the same upsert changes nothing. -/
lemma upsertCallRow_idem (rows : List PlayCallRow) (pid : Nat) (seq : Int)
    (side : Option Side) (role pc diff : String) :
    upsertCallRow (upsertCallRow rows pid seq side role pc diff) pid seq side role pc diff =
      upsertCallRow rows pid seq side role pc diff := by
  by_cases h : rows.any (fun c => sameKey c pid seq) = true
  · have h1 : upsertCallRow rows pid seq side role pc diff =
        rows.map (fun c => if sameKey c pid seq then updCall side role pc diff c else c) := by
      unfold upsertCallRow
      rw [if_pos h]
    have hcomp : ∀ c : PlayCallRow,
        sameKey (if sameKey c pid seq then updCall side role pc diff c else c) pid seq =
          sameKey c pid seq := by
      intro c
      by_cases hk : sameKey c pid seq = true
      · rw [if_pos hk, sameKey_updCall]
      · rw [if_neg hk]
    have hany : ((rows.map (fun c => if sameKey c pid seq then updCall side role pc diff c
        else c)).any (fun c => sameKey c pid seq)) = true := by
      rw [List.any_map]
      calc (rows.any ((fun c => sameKey c pid seq) ∘
              (fun c => if sameKey c pid seq then updCall side role pc diff c else c)))
          = rows.any (fun c => sameKey c pid seq) := by
            congr 1
            funext c
            exact hcomp c
        _ = true := h
    rw [h1]
    unfold upsertCallRow
    rw [if_pos hany, List.map_map]
    refine List.map_congr_left (fun c _ => ?_)
    simp only [Function.comp]
    by_cases hk : sameKey c pid seq = true
    · rw [if_pos hk, sameKey_updCall, if_pos hk, updCall_idem]
    · rw [if_neg hk, if_neg hk]
  · have h1 : upsertCallRow rows pid seq side role pc diff =
        rows ++ [newCallRow pid seq side role pc diff] := by
      unfold upsertCallRow
      rw [if_neg h]
    have hany : ((rows ++ [newCallRow pid seq side role pc diff]).any
        (fun c => sameKey c pid seq)) = true := by
      rw [List.any_append]
      simp [sameKey_newCallRow]
    have hmiss : ∀ c ∈ rows, sameKey c pid seq = false := by
      intro c hc
      rcases Bool.eq_false_or_eq_true (sameKey c pid seq) with ht | hf
      · exact absurd (List.any_eq_true.mpr ⟨c, hc, ht⟩) h
      · exact hf
    rw [h1]
    unfold upsertCallRow
    rw [if_pos hany, List.map_append]
    have hrows : rows.map (fun c => if sameKey c pid seq then updCall side role pc diff c
        else c) = rows := by
      calc rows.map (fun c => if sameKey c pid seq then updCall side role pc diff c else c)
          = rows.map id := by
            refine List.map_congr_left (fun c hc => ?_)
            rw [if_neg (by simp [hmiss c hc])]
            rfl
        _ = rows := List.map_id rows
    rw [hrows]
    congr 1
    simp only [List.map_cons, List.map_nil]
    rw [if_pos (sameKey_newCallRow pid seq side role pc diff)]
    rfl

/-- In the conflict case of the upsert, the updated table has exactly one
row with the key, and it carries the submitted payload. -/
lemma upsert_map_filter_aux (pid : Nat) (seq : Int) (side : Option Side)
    (role pc diff : String) :
    ∀ rows : List PlayCallRow,
      rows.Pairwise (fun a b => ¬ (a.player_id = b.player_id ∧ a.seq = b.seq)) →
      rows.any (fun c => sameKey c pid seq) = true →
      ((rows.map (fun c => if sameKey c pid seq then updCall side role pc diff c else c)).filter
          (fun c => sameKey c pid seq)).map (fun c => (c.play_call, c.difficulty)) =
        [(some pc, some diff)] := by
  intro rows
  induction rows with
  | nil =>
    intro _ h
    simp at h
  | cons a rows ih =>
    intro hpw h
    rcases List.pairwise_cons.mp hpw with ⟨ha, hpw'⟩
    by_cases hk : sameKey a pid seq = true
    · have hKa : a.player_id = pid ∧ a.seq = seq := by simpa [sameKey] using hk
      have hrest : ∀ b ∈ rows, sameKey b pid seq = false := by
        intro b hb
        rcases Bool.eq_false_or_eq_true (sameKey b pid seq) with ht | hf
        · have hKb : b.player_id = pid ∧ b.seq = seq := by simpa [sameKey] using ht
          exact absurd ⟨hKa.1.trans hKb.1.symm, hKa.2.trans hKb.2.symm⟩ (ha b hb)
        · exact hf
      have htail : ((rows.map (fun c => if sameKey c pid seq then updCall side role pc diff c
          else c)).filter (fun c => sameKey c pid seq)) = [] := by
        rw [List.filter_eq_nil_iff]
        intro x hx
        rcases List.mem_map.mp hx with ⟨b, hb, rfl⟩
        by_cases hkb : sameKey b pid seq = true
        · exact absurd hkb (by simp [hrest b hb])
        · rw [if_neg hkb]
          simp [hrest b hb]
      simp only [List.map_cons]
      rw [List.filter_cons, if_pos hk]
      rw [if_pos (by rw [sameKey_updCall]; exact hk)]
      rw [htail]
      rfl
    · have hany' : rows.any (fun c => sameKey c pid seq) = true := by
        rcases List.any_eq_true.mp h with ⟨b, hb, htb⟩
        rcases List.mem_cons.mp hb with rfl | hb'
        · exact absurd htb hk
        · exact List.any_eq_true.mpr ⟨b, hb', htb⟩
      simp only [List.map_cons]
      rw [List.filter_cons, if_neg hk]
      rw [if_neg (by simpa [Bool.not_eq_true] using hk)]
      exact ih hpw' hany'

/-- After upserting, the key `(pid, seq)` identifies exactly one row, which
carries the submitted call and difficulty (given the schema's uniqueness of
the key on the starting table). -/
lemma upsertCallRow_filter_key (pid : Nat) (seq : Int) (side : Option Side)
    (role pc diff : String) :
    ∀ rows : List PlayCallRow,
      rows.Pairwise (fun a b => ¬ (a.player_id = b.player_id ∧ a.seq = b.seq)) →
      ((upsertCallRow rows pid seq side role pc diff).filter
          (fun c => sameKey c pid seq)).map (fun c => (c.play_call, c.difficulty)) =
        [(some pc, some diff)] := by
  intro rows hpw
  by_cases h : rows.any (fun c => sameKey c pid seq) = true
  · unfold upsertCallRow
    rw [if_pos h]
    exact upsert_map_filter_aux pid seq side role pc diff rows hpw h
  · unfold upsertCallRow
    rw [if_neg h]
    have hmiss : ∀ c ∈ rows, sameKey c pid seq = false := by
      intro c hc
      rcases Bool.eq_false_or_eq_true (sameKey c pid seq) with ht | hf
      · exact absurd (List.any_eq_true.mpr ⟨c, hc, ht⟩) h
      · exact hf
    rw [List.filter_append]
    have hfil : rows.filter (fun c => sameKey c pid seq) = [] := by
      rw [List.filter_eq_nil_iff]
      intro x hx
      simp [hmiss x hx]
    rw [hfil]
    simp [sameKey_newCallRow]
    exact ⟨rfl, rfl⟩

/-- Anatomy of a successful `submitPlayCallAction`: the play-calls table is
updated by the upsert, and the game row changes only in `play_subphase`,
which stays within the drive subphases that accept play calls. -/
lemma submitPlayCall_anatomy (db : GDB) (pid : Nat) (role pc diff : String) (player : Player)
    (hphase : db.game.phase = "drive")
    (hsp : db.game.play_subphase = some "play_call" ∨ db.game.play_subphase = some "question")
    (hpl : findPlayer db pid = some player)
    (hside : player.side =
      (if role = "offense" then db.game.offense_side else db.game.defense_side)) :
    (submitPlayCallAction db pid role pc diff).2.play_calls =
      upsertCallRow db.play_calls pid (db.game.current_play_seq.getD 1) player.side role
        pc diff ∧
    (submitPlayCallAction db pid role pc diff).2.game.phase = "drive" ∧
    ((submitPlayCallAction db pid role pc diff).2.game.play_subphase = some "play_call" ∨
      (submitPlayCallAction db pid role pc diff).2.game.play_subphase = some "question") ∧
    (submitPlayCallAction db pid role pc diff).2.players = db.players ∧
    (submitPlayCallAction db pid role pc diff).2.game.offense_side = db.game.offense_side ∧
    (submitPlayCallAction db pid role pc diff).2.game.defense_side = db.game.defense_side ∧
    (submitPlayCallAction db pid role pc diff).2.game.current_play_seq =
      db.game.current_play_seq := by
  have hguard : ¬ (¬ (db.game.phase = "drive") ∨
      ¬ ((db.game.play_subphase.getD "") = "play_call" ∨
        (db.game.play_subphase.getD "") = "question")) := by
    rcases hsp with h | h <;> simp [hphase, h]
  unfold submitPlayCallAction
  rw [if_neg hguard]
  simp only [hpl]
  rw [if_neg (not_not_intro hside)]
  refine ⟨rfl, hphase, ?_, rfl, rfl, rfl, rfl⟩
  by_cases hb : (((upsertCallRow db.play_calls pid (db.game.current_play_seq.getD 1)
        player.side role pc diff).filter
          (fun c => c.seq == db.game.current_play_seq.getD 1)).any
        (fun c => c.role == "offense") &&
      ((upsertCallRow db.play_calls pid (db.game.current_play_seq.getD 1)
        player.side role pc diff).filter
          (fun c => c.seq == db.game.current_play_seq.getD 1)).any
        (fun c => c.role == "defense")) = true
  · right
    simp only [hb, if_true]
  · left
    simp only [Bool.not_eq_true] at hb
    simp only [hb, Bool.false_eq_true, if_false]

/-- Claim C5: `submitPlayCallAction` is idempotent on the play-calls table —
given the schema's key uniqueness, repeating the same successful submission
leaves the table unchanged, and the key `(player, seq)` maps to exactly one
row holding the submitted call and difficulty. -/
theorem submitPlayCall_idempotent (db : GDB) (pid : Nat) (role pc diff : String)
    (player : Player)
    (hpw : db.play_calls.Pairwise (fun a b => ¬ (a.player_id = b.player_id ∧ a.seq = b.seq)))
    (hphase : db.game.phase = "drive")
    (hsp : db.game.play_subphase = some "play_call" ∨ db.game.play_subphase = some "question")
    (hpl : findPlayer db pid = some player)
    (hside : player.side =
      (if role = "offense" then db.game.offense_side else db.game.defense_side)) :
    (submitPlayCallAction (submitPlayCallAction db pid role pc diff).2 pid role pc
        diff).2.play_calls =
      (submitPlayCallAction db pid role pc diff).2.play_calls ∧
    (((submitPlayCallAction db pid role pc diff).2.play_calls.filter
        (fun c => sameKey c pid (db.game.current_play_seq.getD 1))).map
      (fun c => (c.play_call, c.difficulty)) = [(some pc, some diff)]) := by
  obtain ⟨hcalls, hphase1, hsp1, hplayers1, hoff1, hdef1, hseq1⟩ :=
    submitPlayCall_anatomy db pid role pc diff player hphase hsp hpl hside
  set db1 := (submitPlayCallAction db pid role pc diff).2 with hdb1
  have hpl1 : findPlayer db1 pid = some player := by
    unfold findPlayer
    rw [hplayers1]
    exact hpl
  have hside1 : player.side =
      (if role = "offense" then db1.game.offense_side else db1.game.defense_side) := by
    rw [hoff1, hdef1]
    exact hside
  obtain ⟨hcalls2, -, -, -, -, -, -⟩ :=
    submitPlayCall_anatomy db1 pid role pc diff player hphase1 hsp1 hpl1 hside1
  constructor
  · rw [hcalls2, hcalls, hseq1, upsertCallRow_idem]
  · rw [hcalls]
    exact upsertCallRow_filter_key pid (db.game.current_play_seq.getD 1) player.side role
      pc diff db.play_calls hpw

/-- Witness for `submitPlayCall_idempotent`: the home player submits the
same offense call twice on a fresh drive. -/
theorem submitPlayCall_idempotent_witness :
    (submitPlayCallAction (submitPlayCallAction dbFresh 1 "offense" "Run" "easy").2
        1 "offense" "Run" "easy").2.play_calls =
      (submitPlayCallAction dbFresh 1 "offense" "Run" "easy").2.play_calls ∧
    (((submitPlayCallAction dbFresh 1 "offense" "Run" "easy").2.play_calls.filter
        (fun c => sameKey c 1 (dbFresh.game.current_play_seq.getD 1))).map
      (fun c => (c.play_call, c.difficulty)) = [(some "Run", some "easy")]) := by
  exact submitPlayCall_idempotent dbFresh 1 "offense" "Run" "easy"
    { id := 1, side := some Side.home, role := "player" }
    (by decide) (by decide) (Or.inl (by decide)) (by decide) (by decide)

/-! ## Both-sides gating of subphase advancement -/

/-- The play-call branch writes `question` exactly when both flags hold. -/
lemma question_write_iff (a b : Bool) :
    (some (if (a && b) = true then "question" else "play_call") = some "question") ↔
      (a = true ∧ b = true) := by
  cases a <;> cases b <;> simp

/-- The answer/roll branch advances the subphase exactly when its condition
holds, given the old subphase differs from the target. -/
lemma advance_branch_iff (c : Prop) [Decidable c] (db : GDB) (pcs : List PlayCallRow)
    (new : String) (hold : db.game.play_subphase ≠ some new) :
    ((if c then ((Except.ok () : Except String Unit),
        { db with game := { db.game with play_subphase := some new }, play_calls := pcs })
      else (Except.ok (), { db with play_calls := pcs })).2.game.play_subphase = some new) ↔
      c := by
  split_ifs with h
  · simp [h]
  · exact ⟨fun hx => absurd hx hold, fun hc => absurd hc h⟩

/-- Claim C4: the shared game record advances only when both sides have
submitted at each stage: `play_call → question` requires both play calls,
`question → rolls` both non-null answers, `rolls → rolls_done` both rolls,
and `finalizePlayResolution` runs only once both sides are ready after the
roll; a single side's submission never advances the subphase. -/
theorem advance_requires_both_sides :
    (∀ (db : GDB) (pid : Nat) (role pc diff : String),
      (submitPlayCallAction db pid role pc diff).1.isOk = true →
      ((submitPlayCallAction db pid role pc diff).2.game.play_subphase = some "question" ↔
        (((submitPlayCallAction db pid role pc diff).2.play_calls.filter
            (fun c => c.seq == db.game.current_play_seq.getD 1)).any
          (fun c => c.role == "offense") = true ∧
         ((submitPlayCallAction db pid role pc diff).2.play_calls.filter
            (fun c => c.seq == db.game.current_play_seq.getD 1)).any
          (fun c => c.role == "defense") = true))) ∧
    (∀ (db : GDB) (pid : Nat) (isCorrect : Bool) (forSide : Option String),
      (submitQuestionAnswerAction db pid isCorrect forSide).1.isOk = true →
      ((submitQuestionAnswerAction db pid isCorrect forSide).2.game.play_subphase =
          some "rolls" ↔
        (((findRole ((submitQuestionAnswerAction db pid isCorrect forSide).2.play_calls.filter
            (fun c => c.seq == db.game.current_play_seq.getD 1)) "offense").bind
          (fun c => c.answer)).isSome = true ∧
         ((findRole ((submitQuestionAnswerAction db pid isCorrect forSide).2.play_calls.filter
            (fun c => c.seq == db.game.current_play_seq.getD 1)) "defense").bind
          (fun c => c.answer)).isSome = true))) ∧
    (∀ (db : GDB) (pid : Nat) (manualRoll : Option Int) (forSide : Option String) (s : RS),
      (submitRollAction db pid manualRoll forSide s).1.isOk = true →
      ((submitRollAction db pid manualRoll forSide s).2.game.play_subphase =
          some "rolls_done" ↔
        (((findRole ((submitRollAction db pid manualRoll forSide s).2.play_calls.filter
            (fun c => c.seq == db.game.current_play_seq.getD 1)) "offense").bind
          (fun c => c.roll)).isSome = true ∧
         ((findRole ((submitRollAction db pid manualRoll forSide s).2.play_calls.filter
            (fun c => c.seq == db.game.current_play_seq.getD 1)) "defense").bind
          (fun c => c.roll)).isSome = true))) ∧
    (∀ (db : GDB) (pid : Nat) (forSide : Option String) (s : RS) (player : Player),
      findPlayer db pid = some player →
      (continueAfterRollAction db pid forSide s).1.isOk = true →
      ¬ ((((db.play_calls.map (fun c =>
              if c.seq == db.game.current_play_seq.getD 1 &&
                  c.role == targetRoleFor db.game player forSide then
                { c with ready_after_roll := true } else c)).filter
            (fun c => c.seq == db.game.current_play_seq.getD 1)).any
          (fun r => r.role == "offense" && r.ready_after_roll) = true) ∧
         (((db.play_calls.map (fun c =>
              if c.seq == db.game.current_play_seq.getD 1 &&
                  c.role == targetRoleFor db.game player forSide then
                { c with ready_after_roll := true } else c)).filter
            (fun c => c.seq == db.game.current_play_seq.getD 1)).any
          (fun r => r.role == "defense" && r.ready_after_roll) = true)) →
      (continueAfterRollAction db pid forSide s).2.game = db.game ∧
      (continueAfterRollAction db pid forSide s).2.plays = db.plays) := by
  refine ⟨fun db pid role pc diff hok => ?_, fun db pid isCorrect forSide hok => ?_,
    fun db pid manualRoll forSide s hok => ?_, fun db pid forSide s player hpl hok hnb => ?_⟩
  · unfold submitPlayCallAction at hok ⊢
    by_cases hguard : ¬ (db.game.phase = "drive") ∨
        ¬ ((db.game.play_subphase.getD "") = "play_call" ∨
          (db.game.play_subphase.getD "") = "question")
    · rw [if_pos hguard] at hok
      simp [Except.isOk, Except.toBool] at hok
    rw [if_neg hguard] at hok ⊢
    rcases hpl : findPlayer db pid with _ | player
    · simp only [hpl] at hok
      simp [Except.isOk, Except.toBool] at hok
    simp only [hpl] at hok ⊢
    by_cases hside : ¬ (player.side =
        (if role = "offense" then db.game.offense_side else db.game.defense_side))
    · rw [if_pos hside] at hok
      simp [Except.isOk, Except.toBool] at hok
    rw [if_neg hside] at hok ⊢
    exact question_write_iff _ _
  · unfold submitQuestionAnswerAction at hok ⊢
    by_cases hguard : ¬ (db.game.phase = "drive") ∨ ¬ (db.game.play_subphase = some "question")
    · rw [if_pos hguard] at hok
      simp [Except.isOk, Except.toBool] at hok
    rw [if_neg hguard] at hok ⊢
    rcases hpl : findPlayer db pid with _ | player
    · simp only [hpl] at hok
      simp [Except.isOk, Except.toBool] at hok
    simp only [hpl] at hok ⊢
    by_cases hpart : ¬ (player.role = "ref") ∧ ¬ (player.side = db.game.offense_side) ∧
        ¬ (player.side = db.game.defense_side)
    · rw [if_pos hpart] at hok
      simp [Except.isOk, Except.toBool] at hok
    rw [if_neg hpart] at hok ⊢
    have hq : db.game.play_subphase = some "question" := by
      rcases not_or.mp hguard with ⟨-, h2⟩
      exact not_not.mp h2
    by_cases hC : ((findRole ((upsertFullRow db.play_calls
          (answerRow db pid player isCorrect forSide)).filter
          (fun c => c.seq == db.game.current_play_seq.getD 1)) "offense").bind
          (fun c => c.answer)).isSome = true ∧
        ((findRole ((upsertFullRow db.play_calls
          (answerRow db pid player isCorrect forSide)).filter
          (fun c => c.seq == db.game.current_play_seq.getD 1)) "defense").bind
          (fun c => c.answer)).isSome = true
    · rw [if_pos hC]
      exact iff_of_true rfl hC
    · rw [if_neg hC]
      exact iff_of_false (by simp [hq]) hC
  · unfold submitRollAction at hok ⊢
    by_cases hguard : ¬ (db.game.phase = "drive") ∨ ¬ (db.game.play_subphase = some "rolls")
    · rw [if_pos hguard] at hok
      simp [Except.isOk, Except.toBool] at hok
    rw [if_neg hguard] at hok ⊢
    rcases hpl : findPlayer db pid with _ | player
    · simp only [hpl] at hok
      simp [Except.isOk, Except.toBool] at hok
    simp only [hpl] at hok ⊢
    by_cases hdone : ((findRole (db.play_calls.filter
        (fun c => c.seq == db.game.current_play_seq.getD 1))
        (targetRoleFor db.game player forSide)).bind (fun c => c.roll)).isSome = true
    · rw [if_pos hdone] at hok
      simp [Except.isOk, Except.toBool] at hok
    rw [if_neg hdone] at hok ⊢
    have hq : db.game.play_subphase = some "rolls" := by
      rcases not_or.mp hguard with ⟨-, h2⟩
      exact not_not.mp h2
    by_cases hC : ((findRole ((upsertFullRow db.play_calls
          (rollRow db pid player manualRoll forSide s)).filter
          (fun c => c.seq == db.game.current_play_seq.getD 1)) "offense").bind
          (fun c => c.roll)).isSome = true ∧
        ((findRole ((upsertFullRow db.play_calls
          (rollRow db pid player manualRoll forSide s)).filter
          (fun c => c.seq == db.game.current_play_seq.getD 1)) "defense").bind
          (fun c => c.roll)).isSome = true
    · rw [if_pos hC]
      exact iff_of_true rfl hC
    · rw [if_neg hC]
      exact iff_of_false (by simp [hq]) hC
  · unfold continueAfterRollAction at hok ⊢
    by_cases hguard : ¬ (db.game.phase = "drive") ∨ ¬ (db.game.play_subphase = some "rolls_done")
    · rw [if_pos hguard] at hok
      simp [Except.isOk, Except.toBool] at hok
    rw [if_neg hguard] at hok ⊢
    simp only [hpl] at hok ⊢
    split_ifs with h
    · exact absurd ((Bool.and_eq_true _ _) ▸ h) hnb
    · exact ⟨rfl, rfl⟩

/-- Witness for `advance_requires_both_sides` on concrete snapshots. -/
theorem advance_requires_both_sides_witness :
    ((submitPlayCallAction dbFresh 1 "offense" "Run" "easy").2.game.play_subphase =
        some "question" ↔
      (((submitPlayCallAction dbFresh 1 "offense" "Run" "easy").2.play_calls.filter
          (fun c => c.seq == dbFresh.game.current_play_seq.getD 1)).any
        (fun c => c.role == "offense") = true ∧
       ((submitPlayCallAction dbFresh 1 "offense" "Run" "easy").2.play_calls.filter
          (fun c => c.seq == dbFresh.game.current_play_seq.getD 1)).any
        (fun c => c.role == "defense") = true)) ∧
    ((submitQuestionAnswerAction dbQ 1 true none).2.game.play_subphase = some "rolls" ↔
      (((findRole ((submitQuestionAnswerAction dbQ 1 true none).2.play_calls.filter
          (fun c => c.seq == dbQ.game.current_play_seq.getD 1)) "offense").bind
        (fun c => c.answer)).isSome = true ∧
       ((findRole ((submitQuestionAnswerAction dbQ 1 true none).2.play_calls.filter
          (fun c => c.seq == dbQ.game.current_play_seq.getD 1)) "defense").bind
        (fun c => c.answer)).isSome = true)) ∧
    ((submitRollAction dbR 1 (some 3) none rsW).2.game.play_subphase = some "rolls_done" ↔
      (((findRole ((submitRollAction dbR 1 (some 3) none rsW).2.play_calls.filter
          (fun c => c.seq == dbR.game.current_play_seq.getD 1)) "offense").bind
        (fun c => c.roll)).isSome = true ∧
       ((findRole ((submitRollAction dbR 1 (some 3) none rsW).2.play_calls.filter
          (fun c => c.seq == dbR.game.current_play_seq.getD 1)) "defense").bind
        (fun c => c.roll)).isSome = true)) ∧
    ((continueAfterRollAction dbC 1 none rsW).2.game = dbC.game ∧
     (continueAfterRollAction dbC 1 none rsW).2.plays = dbC.plays) := by
  refine ⟨?_, ?_, ?_, ?_⟩
  · exact advance_requires_both_sides.1 dbFresh 1 "offense" "Run" "easy" (by decide)
  · exact advance_requires_both_sides.2.1 dbQ 1 true none (by decide)
  · exact advance_requires_both_sides.2.2.1 dbR 1 (some 3) none rsW (by decide)
  · exact advance_requires_both_sides.2.2.2 dbC 1 none rsW
      { id := 1, side := some Side.home, role := "player" } (by decide) (by decide) (by decide)

/-! ## Phase-order discipline -/

/-- Counterexample to claim C3 as stated: `flipCoinAction` performs no
current-phase check, so an away player can flip the coin during a drive,
moving the game from `drive`/`play_call` to `coin_toss_choice`, which is
not a successor in the claimed order. -/
theorem phase_order_cex :
    (flipCoinAction dbFresh 2 "heads" true).1.isOk = true ∧
    dbFresh.game.phase = "drive" ∧ dbFresh.game.play_subphase = some "play_call" ∧
    (flipCoinAction dbFresh 2 "heads" true).2.game.phase = "coin_toss_choice" ∧
    specPhaseSucc (dbFresh.game.phase, dbFresh.game.play_subphase)
      ((flipCoinAction dbFresh 2 "heads" true).2.game.phase,
       (flipCoinAction dbFresh 2 "heads" true).2.game.play_subphase) = false ∧
    ¬ ((flipCoinAction dbFresh 2 "heads" true).2.game.phase = dbFresh.game.phase ∧
       (flipCoinAction dbFresh 2 "heads" true).2.game.play_subphase =
         dbFresh.game.play_subphase) := by
  decide

/-- On input phases other than kickoff, `resolveOutcome` either scores
(phase `kickoff`, null subphase) or keeps the phase and returns to
`play_call`. -/
lemma resolveOutcome_phase_subphase (g : Game) (y : Int) (hgp : g.phase ≠ "kickoff") :
    ((resolveOutcome g y).1.phase = "kickoff" ∧
      (resolveOutcome g y).1.play_subphase = none) ∨
    ((resolveOutcome g y).1.phase = g.phase ∧
      (resolveOutcome g y).1.play_subphase = some "play_call") := by
  by_cases hH : tdHome g y
  · left
    constructor <;> simp [resolveOutcome, hH]
  · by_cases hA : tdAway g y
    · left
      constructor <;> simp [resolveOutcome, hH, hA]
    · right
      constructor <;> simp [resolveOutcome, hH, hA, hgp]

/-- Claim C3 (amended): the drive-play handlers and the kickoff touchback
only move along the claimed order — each succeeds only from its required
phase/subphase and writes only that stage's successor (or leaves the stage
unchanged) — but `startCoinToss`, `resolveCoinTossAction`, `flipCoinAction`,
`chooseTossOptionAction` and `resetDriveAction` check no current phase:
whenever their role checks pass they write their fixed target phase
(`coin_toss`, `kickoff`, `coin_toss_choice`, `kickoff`, `drive`/`play_call`
respectively), whatever the current phase, so out-of-order moves are
possible. -/
theorem phase_transition_discipline :
    (∀ (db : GDB) (rid : Nat) (call : String) (coin : Bool),
      (flipCoinAction db rid call coin).1.isOk = true →
      (flipCoinAction db rid call coin).2.game.phase = "coin_toss_choice") ∧
    (∀ (db : GDB) (call choice : String) (coin : Bool),
      (resolveCoinTossAction db call choice coin).2.game.phase = "kickoff") ∧
    (∀ (db : GDB) (rid : Nat) (choice : String),
      (chooseTossOptionAction db rid choice).1.isOk = true →
      (chooseTossOptionAction db rid choice).2.game.phase = "kickoff") ∧
    (∀ db : GDB, (startCoinToss db).game.phase = "coin_toss") ∧
    (∀ (db : GDB) (rid : Nat) (oP : Option Side) (oY : Option Int),
      (resetDriveAction db rid oP oY).1.isOk = true →
      (resetDriveAction db rid oP oY).2.game.phase = "drive" ∧
      (resetDriveAction db rid oP oY).2.game.play_subphase = some "play_call") ∧
    (∀ db : GDB,
      (resolveKickoffTouchbackAction db).1.isOk = true →
      db.game.phase = "kickoff" ∧
      (resolveKickoffTouchbackAction db).2.game.phase = "drive" ∧
      (resolveKickoffTouchbackAction db).2.game.play_subphase = some "play_call") ∧
    (∀ (db : GDB) (pid : Nat) (role pc diff : String),
      (submitPlayCallAction db pid role pc diff).1.isOk = true →
      db.game.phase = "drive" ∧
      (db.game.play_subphase = some "play_call" ∨ db.game.play_subphase = some "question") ∧
      (submitPlayCallAction db pid role pc diff).2.game.phase = "drive" ∧
      ((submitPlayCallAction db pid role pc diff).2.game.play_subphase = some "play_call" ∨
        (submitPlayCallAction db pid role pc diff).2.game.play_subphase = some "question")) ∧
    (∀ (db : GDB) (pid : Nat) (isCorrect : Bool) (forSide : Option String),
      (submitQuestionAnswerAction db pid isCorrect forSide).1.isOk = true →
      db.game.phase = "drive" ∧ db.game.play_subphase = some "question" ∧
      (submitQuestionAnswerAction db pid isCorrect forSide).2.game.phase = "drive" ∧
      ((submitQuestionAnswerAction db pid isCorrect forSide).2.game.play_subphase =
          some "question" ∨
        (submitQuestionAnswerAction db pid isCorrect forSide).2.game.play_subphase =
          some "rolls")) ∧
    (∀ (db : GDB) (pid : Nat) (manualRoll : Option Int) (forSide : Option String) (s : RS),
      (submitRollAction db pid manualRoll forSide s).1.isOk = true →
      db.game.phase = "drive" ∧ db.game.play_subphase = some "rolls" ∧
      (submitRollAction db pid manualRoll forSide s).2.game.phase = "drive" ∧
      ((submitRollAction db pid manualRoll forSide s).2.game.play_subphase = some "rolls" ∨
        (submitRollAction db pid manualRoll forSide s).2.game.play_subphase =
          some "rolls_done")) ∧
    (∀ (db : GDB) (pid : Nat) (forSide : Option String) (s : RS),
      (continueAfterRollAction db pid forSide s).1.isOk = true →
      db.game.phase = "drive" ∧ db.game.play_subphase = some "rolls_done" ∧
      (((continueAfterRollAction db pid forSide s).2.game.phase = "drive" ∧
        ((continueAfterRollAction db pid forSide s).2.game.play_subphase =
            some "rolls_done" ∨
          (continueAfterRollAction db pid forSide s).2.game.play_subphase =
            some "play_call")) ∨
       ((continueAfterRollAction db pid forSide s).2.game.phase = "kickoff" ∧
        (continueAfterRollAction db pid forSide s).2.game.play_subphase = none))) := by
  refine ⟨fun db rid call coin hok => ?_, fun db call choice coin => rfl,
    fun db rid choice hok => ?_, fun db => rfl, fun db rid oP oY hok => ?_,
    fun db hok => ?_, fun db pid role pc diff hok => ?_,
    fun db pid isCorrect forSide hok => ?_, fun db pid manualRoll forSide s hok => ?_,
    fun db pid forSide s hok => ?_⟩
  · unfold flipCoinAction at hok ⊢
    rcases hpl : findPlayer db rid with _ | player
    · simp [hpl, Except.isOk, Except.toBool] at hok
    simp only [hpl] at hok ⊢
    by_cases hperm : ¬ (player.side = some Side.away ∨ player.role = "ref")
    · rw [if_pos hperm] at hok
      simp [Except.isOk, Except.toBool] at hok
    rw [if_neg hperm]
  · unfold chooseTossOptionAction at hok ⊢
    rcases hw : db.game.toss_winner_side with _ | winner
    · simp [hw, Except.isOk, Except.toBool] at hok
    simp only [hw] at hok ⊢
    rcases hpl : findPlayer db rid with _ | player
    · simp [hpl, Except.isOk, Except.toBool] at hok
    simp only [hpl] at hok ⊢
    by_cases hperm : ¬ (player.role = "ref" ∨ player.side = some winner)
    · rw [if_pos hperm] at hok
      simp [Except.isOk, Except.toBool] at hok
    rw [if_neg hperm]
  · unfold resetDriveAction at hok ⊢
    rcases hpl : findPlayer db rid with _ | requester
    · simp [hpl, Except.isOk, Except.toBool] at hok
    simp only [hpl] at hok ⊢
    by_cases hrole : ¬ (requester.role = "ref")
    · rw [if_pos hrole] at hok
      simp [Except.isOk, Except.toBool] at hok
    rw [if_neg hrole]
    exact ⟨rfl, rfl⟩
  · unfold resolveKickoffTouchbackAction at hok ⊢
    by_cases hg : ¬ (db.game.phase = "kickoff")
    · rw [if_pos hg] at hok
      simp [Except.isOk, Except.toBool] at hok
    rw [if_neg hg]
    exact ⟨not_not.mp hg, rfl, rfl⟩
  · unfold submitPlayCallAction at hok ⊢
    by_cases hguard : ¬ (db.game.phase = "drive") ∨
        ¬ ((db.game.play_subphase.getD "") = "play_call" ∨
          (db.game.play_subphase.getD "") = "question")
    · rw [if_pos hguard] at hok
      simp [Except.isOk, Except.toBool] at hok
    rcases not_or.mp hguard with ⟨h1, h2⟩
    have hphase := not_not.mp h1
    have hsub := not_not.mp h2
    have hsome : db.game.play_subphase = some "play_call" ∨
        db.game.play_subphase = some "question" := by
      rcases hx : db.game.play_subphase with _ | sp
      · rw [hx] at hsub
        simp at hsub
      · rw [hx] at hsub
        simp at hsub
        rcases hsub with h | h
        · exact Or.inl (by rw [h])
        · exact Or.inr (by rw [h])
    rw [if_neg hguard] at hok ⊢
    rcases hpl : findPlayer db pid with _ | player
    · simp [hpl, Except.isOk, Except.toBool] at hok
    simp only [hpl] at hok ⊢
    by_cases hside : ¬ (player.side =
        (if role = "offense" then db.game.offense_side else db.game.defense_side))
    · rw [if_pos hside] at hok
      simp [Except.isOk, Except.toBool] at hok
    rw [if_neg hside]
    refine ⟨hphase, hsome, hphase, ?_⟩
    by_cases hb : (((upsertCallRow db.play_calls pid (db.game.current_play_seq.getD 1)
          player.side role pc diff).filter
            (fun c => c.seq == db.game.current_play_seq.getD 1)).any
          (fun c => c.role == "offense") &&
        ((upsertCallRow db.play_calls pid (db.game.current_play_seq.getD 1)
          player.side role pc diff).filter
            (fun c => c.seq == db.game.current_play_seq.getD 1)).any
          (fun c => c.role == "defense")) = true
    · right
      simp only [hb, if_true]
    · left
      simp only [Bool.not_eq_true] at hb
      simp only [hb, Bool.false_eq_true, if_false]
  · unfold submitQuestionAnswerAction at hok ⊢
    by_cases hguard : ¬ (db.game.phase = "drive") ∨ ¬ (db.game.play_subphase = some "question")
    · rw [if_pos hguard] at hok
      simp [Except.isOk, Except.toBool] at hok
    rcases not_or.mp hguard with ⟨h1, h2⟩
    have hphase := not_not.mp h1
    have hq := not_not.mp h2
    rw [if_neg hguard] at hok ⊢
    rcases hpl : findPlayer db pid with _ | player
    · simp [hpl, Except.isOk, Except.toBool] at hok
    simp only [hpl] at hok ⊢
    by_cases hpart : ¬ (player.role = "ref") ∧ ¬ (player.side = db.game.offense_side) ∧
        ¬ (player.side = db.game.defense_side)
    · rw [if_pos hpart] at hok
      simp [Except.isOk, Except.toBool] at hok
    rw [if_neg hpart]
    by_cases hC : ((findRole ((upsertFullRow db.play_calls
          (answerRow db pid player isCorrect forSide)).filter
          (fun c => c.seq == db.game.current_play_seq.getD 1)) "offense").bind
          (fun c => c.answer)).isSome = true ∧
        ((findRole ((upsertFullRow db.play_calls
          (answerRow db pid player isCorrect forSide)).filter
          (fun c => c.seq == db.game.current_play_seq.getD 1)) "defense").bind
          (fun c => c.answer)).isSome = true
    · rw [if_pos hC]
      exact ⟨hphase, hq, hphase, Or.inr rfl⟩
    · rw [if_neg hC]
      exact ⟨hphase, hq, hphase, Or.inl hq⟩
  · unfold submitRollAction at hok ⊢
    by_cases hguard : ¬ (db.game.phase = "drive") ∨ ¬ (db.game.play_subphase = some "rolls")
    · rw [if_pos hguard] at hok
      simp [Except.isOk, Except.toBool] at hok
    rcases not_or.mp hguard with ⟨h1, h2⟩
    have hphase := not_not.mp h1
    have hq := not_not.mp h2
    rw [if_neg hguard] at hok ⊢
    rcases hpl : findPlayer db pid with _ | player
    · simp [hpl, Except.isOk, Except.toBool] at hok
    simp only [hpl] at hok ⊢
    by_cases hdone : ((findRole (db.play_calls.filter
        (fun c => c.seq == db.game.current_play_seq.getD 1))
        (targetRoleFor db.game player forSide)).bind (fun c => c.roll)).isSome = true
    · rw [if_pos hdone] at hok
      simp [Except.isOk, Except.toBool] at hok
    rw [if_neg hdone]
    by_cases hC : ((findRole ((upsertFullRow db.play_calls
          (rollRow db pid player manualRoll forSide s)).filter
          (fun c => c.seq == db.game.current_play_seq.getD 1)) "offense").bind
          (fun c => c.roll)).isSome = true ∧
        ((findRole ((upsertFullRow db.play_calls
          (rollRow db pid player manualRoll forSide s)).filter
          (fun c => c.seq == db.game.current_play_seq.getD 1)) "defense").bind
          (fun c => c.roll)).isSome = true
    · rw [if_pos hC]
      exact ⟨hphase, hq, hphase, Or.inr rfl⟩
    · rw [if_neg hC]
      exact ⟨hphase, hq, hphase, Or.inl hq⟩
  · unfold continueAfterRollAction at hok ⊢
    by_cases hguard : ¬ (db.game.phase = "drive") ∨ ¬ (db.game.play_subphase = some "rolls_done")
    · rw [if_pos hguard] at hok
      simp [Except.isOk, Except.toBool] at hok
    rcases not_or.mp hguard with ⟨h1, h2⟩
    have hphase := not_not.mp h1
    have hq := not_not.mp h2
    rw [if_neg hguard] at hok ⊢
    rcases hpl : findPlayer db pid with _ | player
    · simp [hpl, Except.isOk, Except.toBool] at hok
    simp only [hpl] at hok ⊢
    refine ⟨hphase, hq, ?_⟩
    split_ifs with hready
    · -- both ready: the play is finalized (or finalize rejects, leaving the
      -- drive untouched)
      unfold finalizePlayResolution
      rcases hoff : findRole ((db.play_calls.map (fun c =>
          if c.seq == db.game.current_play_seq.getD 1 &&
              c.role == targetRoleFor db.game player forSide then
            { c with ready_after_roll := true } else c)).filter
          (fun c => c.seq == db.game.current_play_seq.getD 1)) "offense" with _ | off
      · simp only [hoff]
        exact Or.inl ⟨hphase, Or.inl hq⟩
      rcases hdef : findRole ((db.play_calls.map (fun c =>
          if c.seq == db.game.current_play_seq.getD 1 &&
              c.role == targetRoleFor db.game player forSide then
            { c with ready_after_roll := true } else c)).filter
          (fun c => c.seq == db.game.current_play_seq.getD 1)) "defense" with _ | dfn
      · simp only [hoff, hdef]
        exact Or.inl ⟨hphase, Or.inl hq⟩
      rcases hdie : dieRolls off dfn s with ⟨⟨dO2, dD2⟩, s2⟩
      rcases hy : computeYards (off.play_call.getD "Run") (off.difficulty.getD "easy")
        (dfn.play_call.getD "Pass D") (off.answer.getD false) (dfn.answer.getD false)
        dO2 dD2 s2 with ⟨y, s3⟩
      rcases hro : resolveOutcome db.game y with ⟨g1, gained, turn⟩
      simp only [hoff, hdef, hdie, hy, hro]
      have hps := resolveOutcome_phase_subphase db.game y (by rw [hphase]; decide)
      rw [hro] at hps
      rcases hps with ⟨hp, hs⟩ | ⟨hp, hs⟩
      · exact Or.inr ⟨hp, hs⟩
      · exact Or.inl ⟨by rw [hp, hphase], Or.inr hs⟩
    · exact Or.inl ⟨hphase, Or.inl hq⟩

/-- Witness for `phase_transition_discipline`: the coin flip from a drive
and the kickoff touchback. -/
theorem phase_transition_discipline_witness :
    (flipCoinAction dbFresh 2 "heads" true).2.game.phase = "coin_toss_choice" ∧
    (dbKick.game.phase = "kickoff" ∧
      (resolveKickoffTouchbackAction dbKick).2.game.phase = "drive" ∧
      (resolveKickoffTouchbackAction dbKick).2.game.play_subphase = some "play_call") := by
  refine ⟨?_, ?_⟩
  · exact phase_transition_discipline.1 dbFresh 2 "heads" true (by decide)
  · exact phase_transition_discipline.2.2.2.2.2.1 dbKick (by decide)

end TriviaFootball
